import Mathlib

/-!
Shallow embedding of the `rspirv-reflect` SPIR-V reflection library
(`src/lib.rs`) and proofs of the specification's claims about it.

The data model mirrors the subset of `rspirv::dr` that the library
touches: instructions with an opcode, optional result id / result type,
and a list of tagged operands.  Fallible Rust code returning
`Result<_, ReflectError>` is embedded as `Except Failure _`, where
`Failure` distinguishes recoverable `ReflectError` values from
panic-class failures (`assert!`, `unwrap`, `todo!`, slice-index panics)
and from fuel exhaustion of the recursive type walker (the Rust
recursion is unbounded and diverges on cyclic type graphs).
-/

/-- SPIR-V storage classes used by the library (`spirv::StorageClass`);
all others are collapsed into `other`. -/
inductive StorageClass
  | Uniform
  | UniformConstant
  | StorageBuffer
  | PushConstant
  | other (n : Nat)
deriving DecidableEq, Repr

/-- SPIR-V image dimensionalities (`spirv::Dim`); only `Buffer` and
`SubpassData` are distinguished by the code. -/
inductive Dim
  | Buffer
  | SubpassData
  | other (n : Nat)
deriving DecidableEq, Repr

/-- SPIR-V decorations observed by the library (`spirv::Decoration`). -/
inductive Decoration
  | Block
  | BufferBlock
  | DescriptorSet
  | Binding
  | Offset
  | other (n : Nat)
deriving DecidableEq, Repr

/-- SPIR-V execution modes (`spirv::ExecutionMode`). -/
inductive ExecutionModeKind
  | LocalSize
  | LocalSizeHint
  | other (n : Nat)
deriving DecidableEq, Repr

/-- SPIR-V opcodes touched by the library (`spirv::Op`). -/
inductive Op
  | TypeArray
  | TypeRuntimeArray
  | TypePointer
  | TypeSampledImage
  | TypeSampler
  | TypeImage
  | TypeStruct
  | TypeAccelerationStructureKHR
  | TypeInt
  | TypeFloat
  | TypeVector
  | TypeMatrix
  | TypeVoid
  | Variable
  | Constant
  | ExecutionMode
  | Name
  | Decorate
  | MemberDecorate
  | other (n : Nat)
deriving DecidableEq, Repr

/-- Tagged operand values (`rspirv::dr::Operand`). -/
inductive Operand
  | IdRef (n : Nat)
  | LiteralInt32 (n : Nat)
  | LiteralInt64 (n : Nat)
  | LiteralString (s : String)
  | StorageClass (c : StorageClass)
  | Decoration (d : Decoration)
  | Dim (d : Dim)
  | ExecutionMode (m : ExecutionModeKind)
deriving DecidableEq, Repr

/-- An instruction (`rspirv::dr::Instruction`). -/
structure Instruction where
  opcode : Op
  result_id : Option Nat
  result_type : Option Nat
  operands : List Operand
deriving DecidableEq, Repr

/-- The parsed module (`rspirv::dr::Module`; named `SpvModule` here to
avoid clashing with Mathlib).  `header` carries only the `(major, minor)`
version pair, which is all the library reads from it; `global_insts`
models `global_inst_iter()`. -/
structure SpvModule where
  header : Option (Nat × Nat)
  types_global_values : List Instruction
  annotations : List Instruction
  debug_names : List Instruction
  global_insts : List Instruction
deriving Repr

/-- The library's recoverable error type (`ReflectError`). -/
inductive ReflectError
  | MissingBindingDecoration (i : Instruction)
  | MissingSetDecoration (i : Instruction)
  | OperandError (i : Instruction) (expected : String) (idx : Nat)
  | OperandIndexError (i : Instruction) (expected : String) (idx len : Nat)
  | VariableWithoutReturnType (i : Instruction)
  | UnknownStorageClass (c : StorageClass)
  | UnknownStruct (i : Instruction)
  | ImageSampledFieldUnknown (i : Instruction) (v : Nat)
  | UnhandledTypeInstruction (i : Instruction)
  | MissingResultId (i : Instruction)
  | UnassignedResultId (n : Nat)
  | MissingHeader
  | BindingGlobalParameterBuffer
  | TooManyPushConstants
  | UnexpectedIntWidth (n : Nat)
deriving DecidableEq, Repr

/-- A failure of an embedded computation: a recoverable `ReflectError`,
a Rust panic/abort (assert, unwrap, todo, slice index), or exhaustion of
the recursion fuel (the Rust code would recurse without bound). -/
inductive Failure
  | err (e : ReflectError)
  | panic (msg : String)
  | fuelOut
deriving DecidableEq, Repr

/-- Vulkan descriptor type code (`DescriptorType`, a `u32` newtype). -/
abbrev DescriptorType := Nat

namespace DescriptorType

def SAMPLER : DescriptorType := 0
def COMBINED_IMAGE_SAMPLER : DescriptorType := 1
def SAMPLED_IMAGE : DescriptorType := 2
def STORAGE_IMAGE : DescriptorType := 3
def UNIFORM_TEXEL_BUFFER : DescriptorType := 4
def STORAGE_TEXEL_BUFFER : DescriptorType := 5
def UNIFORM_BUFFER : DescriptorType := 6
def STORAGE_BUFFER : DescriptorType := 7
def INPUT_ATTACHMENT : DescriptorType := 10
def ACCELERATION_STRUCTURE_KHR : DescriptorType := 1000150000

end DescriptorType

/-- Binding arity classification (`BindingCount`). -/
inductive BindingCount
  | One
  | StaticSized (n : Nat)
  | Unbounded
deriving DecidableEq, Repr

/-- Descriptor information (`DescriptorInfo`). -/
structure DescriptorInfo where
  ty : DescriptorType
  binding_count : BindingCount
  name : String
deriving DecidableEq, Repr

/-- Push-constant range (`PushConstantInfo`). -/
structure PushConstantInfo where
  offset : Nat
  size : Nat
deriving DecidableEq, Repr

/-! ## Operand accessors (the `get_operand_at!` / `get_ref_operand_at!` macros) -/

/-- `get_operand_at!(i, Operand::IdRef, idx)`. -/
def getIdRefAt (i : Instruction) (idx : Nat) : Except Failure Nat :=
  if h : idx < i.operands.length then
    match i.operands.get ⟨idx, h⟩ with
    | .IdRef v => .ok v
    | _ => .error (.err (.OperandError i "IdRef" idx))
  else .error (.err (.OperandIndexError i "IdRef" idx i.operands.length))

/-- `get_operand_at!(i, Operand::LiteralInt32, idx)`. -/
def getLiteralInt32At (i : Instruction) (idx : Nat) : Except Failure Nat :=
  if h : idx < i.operands.length then
    match i.operands.get ⟨idx, h⟩ with
    | .LiteralInt32 v => .ok v
    | _ => .error (.err (.OperandError i "LiteralInt32" idx))
  else .error (.err (.OperandIndexError i "LiteralInt32" idx i.operands.length))

/-- `get_operand_at!(i, Operand::LiteralInt64, idx)`. -/
def getLiteralInt64At (i : Instruction) (idx : Nat) : Except Failure Nat :=
  if h : idx < i.operands.length then
    match i.operands.get ⟨idx, h⟩ with
    | .LiteralInt64 v => .ok v
    | _ => .error (.err (.OperandError i "LiteralInt64" idx))
  else .error (.err (.OperandIndexError i "LiteralInt64" idx i.operands.length))

/-- `get_operand_at!(i, Operand::StorageClass, idx)`. -/
def getStorageClassAt (i : Instruction) (idx : Nat) : Except Failure StorageClass :=
  if h : idx < i.operands.length then
    match i.operands.get ⟨idx, h⟩ with
    | .StorageClass v => .ok v
    | _ => .error (.err (.OperandError i "StorageClass" idx))
  else .error (.err (.OperandIndexError i "StorageClass" idx i.operands.length))

/-- `get_operand_at!(i, Operand::Decoration, idx)`. -/
def getDecorationAt (i : Instruction) (idx : Nat) : Except Failure Decoration :=
  if h : idx < i.operands.length then
    match i.operands.get ⟨idx, h⟩ with
    | .Decoration v => .ok v
    | _ => .error (.err (.OperandError i "Decoration" idx))
  else .error (.err (.OperandIndexError i "Decoration" idx i.operands.length))

/-- `get_operand_at!(i, Operand::Dim, idx)`. -/
def getDimAt (i : Instruction) (idx : Nat) : Except Failure Dim :=
  if h : idx < i.operands.length then
    match i.operands.get ⟨idx, h⟩ with
    | .Dim v => .ok v
    | _ => .error (.err (.OperandError i "Dim" idx))
  else .error (.err (.OperandIndexError i "Dim" idx i.operands.length))

/-- `get_ref_operand_at!(i, Operand::LiteralString, idx)`. -/
def getLiteralStringAt (i : Instruction) (idx : Nat) : Except Failure String :=
  if h : idx < i.operands.length then
    match i.operands.get ⟨idx, h⟩ with
    | .LiteralString v => .ok v
    | _ => .error (.err (.OperandError i "LiteralString" idx))
  else .error (.err (.OperandIndexError i "LiteralString" idx i.operands.length))

/-! ## Panic helpers -/

/-- A Rust `assert!(b, msg)`: panics when `b` is false. -/
def assertPanic (b : Bool) (msg : String) : Except Failure Unit :=
  if b then .ok () else .error (.panic msg)

/-- A Rust `Option::unwrap()`: panics on `None`. -/
def unwrapOption {α : Type} : Option α → Except Failure α
  | some a => .ok a
  | none => .error (.panic "called Option::unwrap on a None value")

/-! ## Instruction-graph accessors -/

/-- `Reflection::find_annotations_for_id`: all annotations whose operand
0 is `IdRef(id)`; an annotation whose operand 0 is missing or not an
`IdRef` makes the whole lookup fail. -/
def find_annotations_for_id (annotations : List Instruction) (id : Nat) :
    Except Failure (List Instruction) :=
  match annotations with
  | [] => .ok []
  | a :: rest =>
    match getIdRefAt a 0 with
    | .error e => .error e
    | .ok idref =>
      match find_annotations_for_id rest id with
      | .error e => .error e
      | .ok l => .ok (if idref = id then a :: l else l)

/-- `Reflection::find_assignment_for`: first instruction with
`result_id == Some(id)`. -/
def find_assignment_for (instructions : List Instruction) (id : Nat) :
    Except Failure Instruction :=
  match instructions.find? (fun i => i.result_id == some id) with
  | some i => .ok i
  | none => .error (.err (.UnassignedResultId id))

/-- The annotation lookup performed at the top of
`Reflection::get_descriptor_type`: `result_id.map_or(Ok(vec![]), ...)`. -/
def annotationsFor (m : SpvModule) (ti : Instruction) : Except Failure (List Instruction) :=
  match ti.result_id with
  | none => .ok []
  | some rid => find_annotations_for_id m.annotations rid

/-! ## Type classifier (`Reflection::get_descriptor_type`) -/

/-- Rust tuple comparison `(a, b) <= (c, d)` on the version pair. -/
def verLE (a b : Nat × Nat) : Bool :=
  decide (a.1 < b.1) || (decide (a.1 = b.1) && decide (a.2 ≤ b.2))

/-- The `spirv::Op::TypeImage` arm of `get_descriptor_type`: reads `Dim`
at operand 1 and the `sampled` literal at operand 5 and classifies. -/
def classifyImage (ti : Instruction) : Except Failure DescriptorType :=
  match getDimAt ti 1 with
  | .error e => .error e
  | .ok dim =>
    match getLiteralInt32At ti 5 with
    | .error e => .error e
    | .ok sampled =>
      if dim = .Buffer then
        if sampled = 1 then .ok DescriptorType.UNIFORM_TEXEL_BUFFER
        else if sampled = 2 then .ok DescriptorType.STORAGE_TEXEL_BUFFER
        else .error (.err (.ImageSampledFieldUnknown ti sampled))
      else if dim = .SubpassData then .ok DescriptorType.INPUT_ATTACHMENT
      else if sampled = 1 then .ok DescriptorType.SAMPLED_IMAGE
      else if sampled = 2 then .ok DescriptorType.STORAGE_IMAGE
      else .error (.err (.ImageSampledFieldUnknown ti sampled))

/-- Whether some gathered annotation carries the given decoration in any
operand position (the `for annotation { for operand { .. } }` flag
loop of the `TypeStruct` arm). -/
def hasDecoration (anns : List Instruction) (d : Decoration) : Bool :=
  anns.any (fun a => a.operands.any (fun o => o == .Decoration d))

/-- The `spirv::Op::TypeStruct` arm of `get_descriptor_type`:
version-sensitive `Block` / `BufferBlock` dispatch. -/
def classifyStruct (m : SpvModule) (ti : Instruction) (anns : List Instruction)
    (storage_class : StorageClass) : Except Failure DescriptorType :=
  let is_uniform_buffer := hasDecoration anns .Block
  let is_storage_buffer := hasDecoration anns .BufferBlock
  match m.header with
  | none => .error (.err .MissingHeader)
  | some version =>
    if verLE version (1, 3) && is_storage_buffer then
      .ok DescriptorType.STORAGE_BUFFER
    else if verLE (1, 3) version then
      if is_storage_buffer then
        .error (.panic "BufferBlock decoration is obsolete in SPIRV > 1.3")
      else if !is_uniform_buffer then
        .error (.panic "Struct requires Block decoration in SPIRV > 1.3")
      else
        match storage_class with
        | .Uniform | .UniformConstant => .ok DescriptorType.UNIFORM_BUFFER
        | .StorageBuffer => .ok DescriptorType.STORAGE_BUFFER
        | _ => .error (.err (.UnknownStorageClass storage_class))
    else if is_uniform_buffer then .ok DescriptorType.UNIFORM_BUFFER
    else .error (.err (.UnknownStruct ti))

/-- `Reflection::get_descriptor_type`, with explicit recursion fuel (the
Rust recursion is unbounded).  The recursive calls through
`get_descriptor_type_for_var` are inlined: resolve the id with
`find_assignment_for`, then recurse on the found instruction. -/
def get_descriptor_type (m : SpvModule) :
    Nat → Instruction → StorageClass → Except Failure DescriptorInfo
  | 0, _, _ => .error .fuelOut
  | fuel + 1, ti, storage_class => do
    let anns ← annotationsFor m ti
    match ti.opcode with
    | .TypeArray => do
      let element_type_id ← getIdRefAt ti 0
      let num_elements_id ← getIdRefAt ti 1
      let num_elements ← find_assignment_for m.types_global_values num_elements_id
      let _ ← assertPanic (num_elements.opcode == .Constant)
        "assertion failed: num_elements.class.opcode == Op::Constant"
      let num_elements_ty_id ← unwrapOption num_elements.result_type
      let num_elements_ty ← find_assignment_for m.types_global_values num_elements_ty_id
      let _ ← assertPanic (num_elements_ty.opcode == .TypeInt)
        "assertion failed: num_elements_ty.class.opcode == Op::TypeInt"
      let width ← getLiteralInt32At num_elements_ty 0
      let n ←
        if width = 32 then getLiteralInt32At num_elements 0
        else if width = 64 then getLiteralInt64At num_elements 0
        else Except.error (.err (.UnexpectedIntWidth width))
      let _ ← assertPanic (decide (1 ≤ n)) "assertion failed: num_elements >= 1"
      let elem_ti ← find_assignment_for m.types_global_values element_type_id
      let d ← get_descriptor_type m fuel elem_ti storage_class
      Except.ok { d with binding_count := .StaticSized n }
    | .TypeRuntimeArray => do
      let element_type_id ← getIdRefAt ti 0
      let elem_ti ← find_assignment_for m.types_global_values element_type_id
      let d ← get_descriptor_type m fuel elem_ti storage_class
      Except.ok { d with binding_count := .Unbounded }
    | .TypePointer => do
      let ptr_storage_class ← getStorageClassAt ti 0
      let element_type_id ← getIdRefAt ti 1
      let _ ← assertPanic (storage_class == ptr_storage_class)
        "assertion failed: storage_class == ptr_storage_class"
      let elem_ti ← find_assignment_for m.types_global_values element_type_id
      get_descriptor_type m fuel elem_ti storage_class
    | .TypeSampledImage => do
      let element_type_id ← getIdRefAt ti 0
      let image_instruction ← find_assignment_for m.types_global_values element_type_id
      let descriptor ← get_descriptor_type m fuel image_instruction storage_class
      let dim ← getDimAt image_instruction 1
      let _ ← assertPanic (!(dim == .SubpassData))
        "assertion failed: dim != Dim::DimSubpassData"
      if dim = .Buffer then
        if !(descriptor.ty == DescriptorType.UNIFORM_TEXEL_BUFFER)
            && !(descriptor.ty == DescriptorType.STORAGE_TEXEL_BUFFER) then
          Except.error (.panic "not yet implemented: Unexpected sampled image type")
        else Except.ok descriptor
      else Except.ok { descriptor with ty := DescriptorType.COMBINED_IMAGE_SAMPLER }
    | .TypeSampler => Except.ok ⟨DescriptorType.SAMPLER, .One, ""⟩
    | .TypeImage => do
      let t ← classifyImage ti
      Except.ok ⟨t, .One, ""⟩
    | .TypeStruct => do
      let t ← classifyStruct m ti anns storage_class
      Except.ok ⟨t, .One, ""⟩
    | .TypeAccelerationStructureKHR =>
      Except.ok ⟨DescriptorType.ACCELERATION_STRUCTURE_KHR, .One, ""⟩
    | _ => Except.error (.err (.UnhandledTypeInstruction ti))

/-- `Reflection::get_descriptor_type_for_var`: resolve a variable's
`type_id` and classify the found type instruction. -/
def get_descriptor_type_for_var (m : SpvModule) (fuel : Nat) (type_id : Nat)
    (storage_class : StorageClass) : Except Failure DescriptorInfo := do
  let ti ← find_assignment_for m.types_global_values type_id
  get_descriptor_type m fuel ti storage_class

/-! ## Workgroup-size extractor (`Reflection::get_compute_group_size`) -/

/-- The slice-pattern test of `get_compute_group_size`: the operands
from position 1 (already stripped by the caller) are exactly
`ExecutionMode(LocalSize | LocalSizeHint), LiteralInt32(x),
LiteralInt32(y), LiteralInt32(z)`. -/
def localSizeOf (ops : List Operand) : Option (Nat × Nat × Nat) :=
  match ops with
  | [.ExecutionMode em, .LiteralInt32 x, .LiteralInt32 y, .LiteralInt32 z] =>
    if em = .LocalSize ∨ em = .LocalSizeHint then some (x, y, z) else none
  | _ => none

/-- One step of the `get_compute_group_size` scan: `none` when `i` is
not an `OpExecutionMode` whose operands from position 1 satisfy
`localSizeOf`.  Callers must separately handle the panic of
`operands[1..]` on an empty operand list. -/
def matchesLocalSize (i : Instruction) : Option (Nat × Nat × Nat) :=
  if i.opcode = .ExecutionMode then
    match i.operands with
    | [] => none
    | _ :: ops => localSizeOf ops
  else none

/-- The scan loop of `get_compute_group_size`.  On an `OpExecutionMode`
with an empty operand list, the Rust slice expression
`inst.operands[1..]` panics (start index 1 exceeds the length). -/
def computeGroupSizeScan : List Instruction → Except Failure (Option (Nat × Nat × Nat))
  | [] => .ok none
  | inst :: rest =>
    if inst.opcode = .ExecutionMode then
      match inst.operands with
      | [] => .error (.panic "range start index 1 out of range for slice of length 0")
      | _ :: ops =>
        match localSizeOf ops with
        | some xyz => .ok (some xyz)
        | none => computeGroupSizeScan rest
    else computeGroupSizeScan rest

/-- `Reflection::get_compute_group_size`. -/
def get_compute_group_size (m : SpvModule) : Except Failure (Option (Nat × Nat × Nat)) :=
  computeGroupSizeScan m.global_insts

/-! ## Struct byte sizes (`byte_offset_to_last_var`, `calculate_variable_size_bytes`) -/

/-- The `filter_map` body of `byte_offset_to_last_var`: over the
annotations of the struct's result-id, keep `OpMemberDecorate`
instructions whose operand 2 is `Decoration::Offset` and read the
`LiteralInt32` at operand 3; a `MemberDecorate` whose operand 2 is not a
`Decoration` (or is missing) fails. -/
def collectOffsets : List Instruction → Except Failure (List Nat)
  | [] => .ok []
  | a :: rest =>
    if a.opcode = .MemberDecorate then
      match getDecorationAt a 2 with
      | .error e => .error e
      | .ok d =>
        if d = .Offset then
          match getLiteralInt32At a 3 with
          | .error e => .error e
          | .ok v =>
            match collectOffsets rest with
            | .error e => .error e
            | .ok l => .ok (v :: l)
        else collectOffsets rest
    else collectOffsets rest

/-- `Reflection::byte_offset_to_last_var`: 0 for structs with fewer than
two members, otherwise the maximum `Offset` decoration
(`.max().unwrap_or(0)`). -/
def byte_offset_to_last_var (m : SpvModule) (struct_instruction : Instruction) :
    Except Failure Nat :=
  if struct_instruction.operands.length < 2 then .ok 0
  else
    match struct_instruction.result_id with
    | none => .error (.err (.MissingResultId struct_instruction))
    | some result_id =>
      match find_annotations_for_id m.annotations result_id with
      | .error e => .error e
      | .ok anns =>
        match collectOffsets anns with
        | .error e => .error e
        | .ok offs => .ok (offs.foldr max 0)

/-- `Reflection::calculate_variable_size_bytes`, with explicit recursion
fuel. -/
def calculate_variable_size_bytes (m : SpvModule) :
    Nat → Instruction → Except Failure Nat
  | 0, _ => .error .fuelOut
  | fuel + 1, ti =>
    match ti.opcode with
    | .TypeInt | .TypeFloat =>
      (match getLiteralInt32At ti 0 with
      | .error e => .error e
      | .ok w => .ok (w / 8))
    | .TypeVector | .TypeMatrix => do
      let type_id ← getIdRefAt ti 0
      let var_type_instruction ← find_assignment_for m.types_global_values type_id
      let type_size_bytes ← calculate_variable_size_bytes m fuel var_type_instruction
      let type_constant_count ← getLiteralInt32At ti 1
      Except.ok (type_size_bytes * type_constant_count)
    | .TypeArray => do
      let type_id ← getIdRefAt ti 0
      let var_type_instruction ← find_assignment_for m.types_global_values type_id
      let type_size_bytes ← calculate_variable_size_bytes m fuel var_type_instruction
      let var_constant_id ← getIdRefAt ti 1
      let constant_instruction ← find_assignment_for m.types_global_values var_constant_id
      let type_constant_count ← getLiteralInt32At constant_instruction 0
      Except.ok (type_size_bytes * type_constant_count)
    | .TypeStruct =>
      if ti.operands.length ≠ 0 then do
        let byte_offset ← byte_offset_to_last_var m ti
        let id_ref ← getIdRefAt ti (ti.operands.length - 1)
        let last_ti ← find_assignment_for m.types_global_values id_ref
        let sz ← calculate_variable_size_bytes m fuel last_ti
        Except.ok (byte_offset + sz)
      else .ok 0
    | _ => .ok 0

/-! ## Push-constant extractor (`Reflection::get_push_constant_range`) -/

/-- The variable filter of `get_push_constant_range`: every `OpVariable`
whose storage class operand is `PushConstant`; an `OpVariable` whose
operand 0 is missing or not a storage class fails the whole
collection. -/
def collectPushConstants : List Instruction → Except Failure (List Instruction)
  | [] => .ok []
  | i :: rest =>
    if i.opcode = .Variable then
      match getStorageClassAt i 0 with
      | .error e => .error e
      | .ok cls =>
        if cls = .PushConstant then
          match collectPushConstants rest with
          | .error e => .error e
          | .ok l => .ok (i :: l)
        else collectPushConstants rest
    else collectPushConstants rest

/-- `Reflection::get_push_constant_range`. -/
def get_push_constant_range (m : SpvModule) (fuel : Nat) :
    Except Failure (Option PushConstantInfo) := do
  let push_constants ← collectPushConstants m.types_global_values
  if 1 < push_constants.length then
    Except.error (.err .TooManyPushConstants)
  else
    match push_constants with
    | [] => Except.ok none
    | push_constant :: _ => do
      let rt ← unwrapOption push_constant.result_type
      let instruction ← find_assignment_for m.types_global_values rt
      let instruction ←
        if instruction.opcode = .TypePointer then do
          let ptr_storage_class ← getStorageClassAt instruction 0
          let _ ← assertPanic (StorageClass.PushConstant == ptr_storage_class)
            "assertion failed: PushConstant == ptr_storage_class"
          let element_type_id ← getIdRefAt instruction 1
          find_assignment_for m.types_global_values element_type_id
        else Except.ok instruction
      let size_bytes ← calculate_variable_size_bytes m fuel instruction
      Except.ok (some { offset := 0, size := size_bytes })

/-! ## Binding enumerator (`Reflection::get_descriptor_sets`) -/

/-- Association-list lookup, standing in for `BTreeMap` access.  Only
lookup/insert behaviour matters for the claims, not iteration order. -/
def alookup {α : Type} : List (Nat × α) → Nat → Option α
  | [], _ => none
  | (k', v) :: rest, k => if k' = k then some v else alookup rest k

/-- Association-list insert-or-replace, standing in for
`BTreeMap::insert`. -/
def ainsert {α : Type} : List (Nat × α) → Nat → α → List (Nat × α)
  | [], k, v => [(k, v)]
  | (k', v') :: rest, k, v =>
    if k' = k then (k, v) :: rest else (k', v') :: ainsert rest k v

/-- The inner map: binding index to descriptor info. -/
abbrev BindingMap := List (Nat × DescriptorInfo)

/-- The outer map: set index to binding map. -/
abbrev DescriptorSets := List (Nat × BindingMap)

/-- The uniform-variable filter of `get_descriptor_sets`: every
`OpVariable` whose storage class operand is `Uniform`,
`UniformConstant` or `StorageBuffer`; an `OpVariable` whose operand 0
is missing or not a storage class fails the whole collection. -/
def collectUniformVars : List Instruction → Except Failure (List Instruction)
  | [] => .ok []
  | i :: rest =>
    if i.opcode = .Variable then
      match getStorageClassAt i 0 with
      | .error e => .error e
      | .ok cls =>
        if cls = .Uniform ∨ cls = .UniformConstant ∨ cls = .StorageBuffer then
          match collectUniformVars rest with
          | .error e => .error e
          | .ok l => .ok (i :: l)
        else collectUniformVars rest
    else collectUniformVars rest

/-- The name-table construction of `get_descriptor_sets`: for each
`OpName`, record `id → name`; later entries overwrite earlier ones as
in a `BTreeMap` collect. -/
def buildNames : List Instruction → List (Nat × String) →
    Except Failure (List (Nat × String))
  | [], acc => .ok acc
  | i :: rest, acc =>
    if i.opcode = .Name then
      match getIdRefAt i 0 with
      | .error e => .error e
      | .ok id =>
        match getLiteralStringAt i 1 with
        | .error e => .error e
        | .ok nm => buildNames rest (ainsert acc id nm)
    else buildNames rest acc

/-- One step of the `(set, binding)` fold over a variable's qualifying
annotations: `DescriptorSet` fills the first component, `Binding` the
second; filling an already-filled component is an `assert!` panic. -/
def sbStep (st : Option Nat × Option Nat) (a : Instruction) :
    Except Failure (Option Nat × Option Nat) :=
  match a.operands[1]?, a.operands[2]? with
  | some (Operand.Decoration d), some (Operand.LiteralInt32 i) =>
    if d = .DescriptorSet then
      match st.1 with
      | none => .ok (some i, st.2)
      | some _ => .error (.panic "Set already has a value!")
    else if d = .Binding then
      match st.2 with
      | none => .ok (st.1, some i)
      | some _ => .error (.panic "Binding already has a value!")
    else .ok st
  | _, _ => .ok st

/-- The fold itself. -/
def sbFold : List Instruction → (Option Nat × Option Nat) →
    Except Failure (Option Nat × Option Nat)
  | [], st => .ok st
  | a :: rest, st =>
    match sbStep st a with
    | .error e => .error e
    | .ok st' => sbFold rest st'

/-- `(set, binding)` resolution for one variable: fold `sbStep` over the
annotations with at least three operands (`.filter(|a|
a.operands.len() >= 3)`). -/
def resolveSetBinding (anns : List Instruction) :
    Except Failure (Option Nat × Option Nat) :=
  sbFold (anns.filter (fun a => decide (3 ≤ a.operands.length))) (none, none)

/-- The body of the `for var in uniform_variables` loop of
`get_descriptor_sets`, acting on the accumulated nested map.  A
variable without a `result_id` is skipped (`if let Some(var_id) =
var.result_id`). -/
def processVar (m : SpvModule) (fuel : Nat) (names : List (Nat × String))
    (acc : DescriptorSets) (var : Instruction) : Except Failure DescriptorSets :=
  match var.result_id with
  | none => .ok acc
  | some var_id => do
    let anns ← find_annotations_for_id m.annotations var_id
    let sb ← resolveSetBinding anns
    let set ←
      match sb.1 with
      | some s => Except.ok s
      | none => Except.error (.err (.MissingSetDecoration var))
    let binding ←
      match sb.2 with
      | some b => Except.ok b
      | none => Except.error (.err (.MissingBindingDecoration var))
    let current_set := (alookup acc set).getD []
    let storage_class ← getStorageClassAt var 0
    let type_id ←
      match var.result_type with
      | some t => Except.ok t
      | none => Except.error (.err (.VariableWithoutReturnType var))
    let descriptor_info ← get_descriptor_type_for_var m fuel type_id storage_class
    let descriptor_info ←
      match alookup names var_id with
      | some nm =>
        if nm = "$Globals" then Except.error (.err .BindingGlobalParameterBuffer)
        else Except.ok { descriptor_info with name := nm }
      | none => Except.ok descriptor_info
    if (alookup current_set binding).isNone then
      Except.ok (ainsert acc set (ainsert current_set binding descriptor_info))
    else
      Except.error (.panic "Can not bind to the same slot twice within the same shader")

/-- The variable loop of `get_descriptor_sets`. -/
def processVars (m : SpvModule) (fuel : Nat) (names : List (Nat × String)) :
    DescriptorSets → List Instruction → Except Failure DescriptorSets
  | acc, [] => .ok acc
  | acc, var :: rest =>
    match processVar m fuel names acc var with
    | .error e => .error e
    | .ok acc' => processVars m fuel names acc' rest

/-- `Reflection::get_descriptor_sets`. -/
def get_descriptor_sets (m : SpvModule) (fuel : Nat) :
    Except Failure DescriptorSets :=
  match collectUniformVars m.types_global_values with
  | .error e => .error e
  | .ok uniform_variables =>
    match buildNames m.debug_names [] with
    | .error e => .error e
    | .ok names => processVars m fuel names [] uniform_variables

/-! ## General lemmas about the embedding -/

deriving instance DecidableEq for Except

theorem ok_bind {ε α β : Type} {a : α} {f : α → Except ε β} :
    (Except.ok a : Except ε α) >>= f = f a := rfl

theorem error_bind {ε α β : Type} {e : ε} {f : α → Except ε β} :
    (Except.error e : Except ε α) >>= f = Except.error e := rfl

theorem ebind_ok {ε α β : Type} {x : Except ε α} {f : α → Except ε β} {b : β} :
    x >>= f = Except.ok b ↔ ∃ a, x = Except.ok a ∧ f a = Except.ok b := by
  cases x <;> simp [Bind.bind, Except.bind]

theorem ebind_error {ε α β : Type} {x : Except ε α} {f : α → Except ε β} {e : ε} :
    x >>= f = Except.error e ↔
      x = Except.error e ∨ ∃ a, x = Except.ok a ∧ f a = Except.error e := by
  cases x <;> simp [Bind.bind, Except.bind]

/-- An instruction found by `find_assignment_for` belongs to the list. -/
theorem find_assignment_for_mem {l : List Instruction} {id : Nat} {i : Instruction}
    (h : find_assignment_for l id = .ok i) : i ∈ l := by
  unfold find_assignment_for at h
  cases hf : l.find? (fun j => j.result_id == some id) with
  | none => rw [hf] at h; exact absurd h (by simp)
  | some j =>
    rw [hf] at h
    cases h
    exact List.mem_of_find?_eq_some hf

theorem getDecorationAt_ok_iff {i : Instruction} {idx : Nat} {v : Decoration} :
    getDecorationAt i idx = .ok v ↔ i.operands[idx]? = some (Operand.Decoration v) := by
  unfold getDecorationAt
  split
  · next h =>
    rw [List.getElem?_eq_getElem h]
    have : i.operands.get ⟨idx, h⟩ = i.operands[idx] := rfl
    rw [this]
    cases i.operands[idx] <;> simp
  · next h =>
    rw [List.getElem?_eq_none (Nat.le_of_not_lt h)]
    simp

theorem getLiteralInt32At_ok_iff {i : Instruction} {idx : Nat} {v : Nat} :
    getLiteralInt32At i idx = .ok v ↔ i.operands[idx]? = some (Operand.LiteralInt32 v) := by
  unfold getLiteralInt32At
  split
  · next h =>
    rw [List.getElem?_eq_getElem h]
    have : i.operands.get ⟨idx, h⟩ = i.operands[idx] := rfl
    rw [this]
    cases i.operands[idx] <;> simp
  · next h =>
    rw [List.getElem?_eq_none (Nat.le_of_not_lt h)]
    simp

theorem getIdRefAt_ok_iff {i : Instruction} {idx : Nat} {v : Nat} :
    getIdRefAt i idx = .ok v ↔ i.operands[idx]? = some (Operand.IdRef v) := by
  unfold getIdRefAt
  split
  · next h =>
    rw [List.getElem?_eq_getElem h]
    have : i.operands.get ⟨idx, h⟩ = i.operands[idx] := rfl
    rw [this]
    cases i.operands[idx] <;> simp
  · next h =>
    rw [List.getElem?_eq_none (Nat.le_of_not_lt h)]
    simp

/-! ## Claim C3: TypeImage classification -/

/-- C3: for every `TypeImage` instruction, classification reads the
`Dim` at operand 1 and the `sampled` literal at operand 5 and returns
`UNIFORM_TEXEL_BUFFER` when `Dim == Buffer` and `sampled == 1`,
`STORAGE_TEXEL_BUFFER` when `Dim == Buffer` and `sampled == 2`,
`INPUT_ATTACHMENT` when `Dim == SubpassData`, otherwise `SAMPLED_IMAGE`
when `sampled == 1` and `STORAGE_IMAGE` when `sampled == 2`; any other
`sampled` value fails with `ImageSampledFieldUnknown`. -/
theorem claim_C3 (m : SpvModule) (fuel : Nat) (ti : Instruction) (sc : StorageClass)
    (anns : List Instruction) (dim : Dim) (sampled : Nat)
    (hop : ti.opcode = .TypeImage)
    (hann : annotationsFor m ti = .ok anns)
    (hdim : getDimAt ti 1 = .ok dim)
    (hs : getLiteralInt32At ti 5 = .ok sampled) :
    (dim = .Buffer → sampled = 1 →
      get_descriptor_type m (fuel + 1) ti sc =
        .ok ⟨DescriptorType.UNIFORM_TEXEL_BUFFER, .One, ""⟩) ∧
    (dim = .Buffer → sampled = 2 →
      get_descriptor_type m (fuel + 1) ti sc =
        .ok ⟨DescriptorType.STORAGE_TEXEL_BUFFER, .One, ""⟩) ∧
    (dim = .SubpassData →
      get_descriptor_type m (fuel + 1) ti sc =
        .ok ⟨DescriptorType.INPUT_ATTACHMENT, .One, ""⟩) ∧
    (dim ≠ .Buffer → dim ≠ .SubpassData → sampled = 1 →
      get_descriptor_type m (fuel + 1) ti sc =
        .ok ⟨DescriptorType.SAMPLED_IMAGE, .One, ""⟩) ∧
    (dim ≠ .Buffer → dim ≠ .SubpassData → sampled = 2 →
      get_descriptor_type m (fuel + 1) ti sc =
        .ok ⟨DescriptorType.STORAGE_IMAGE, .One, ""⟩) ∧
    (dim ≠ .SubpassData → sampled ≠ 1 → sampled ≠ 2 →
      get_descriptor_type m (fuel + 1) ti sc =
        .error (.err (.ImageSampledFieldUnknown ti sampled))) := by
  refine ⟨?_, ?_, ?_, ?_, ?_, ?_⟩
  · intro hd h1
    simp [get_descriptor_type, hop, hann, ok_bind, classifyImage, hdim, hs, hd, h1]
  · intro hd h2
    simp [get_descriptor_type, hop, hann, ok_bind, classifyImage, hdim, hs, hd, h2]
  · intro hd
    by_cases h1 : sampled = 1 <;> by_cases h2 : sampled = 2 <;>
      simp_all [get_descriptor_type, hop, hann, ok_bind, classifyImage, hdim, hs, hd]
  · intro hb hd h1
    simp [get_descriptor_type, hop, hann, ok_bind, classifyImage, hdim, hs, hb, hd, h1]
  · intro hb hd h2
    by_cases h1 : sampled = 1 <;>
      simp_all [get_descriptor_type, hop, hann, ok_bind, classifyImage, hdim, hs, hb, hd]
  · intro hd h1 h2
    by_cases hb : dim = Dim.Buffer <;>
      simp [get_descriptor_type, hop, hann, ok_bind, error_bind, classifyImage, hdim, hs,
        hb, hd, h1, h2]

/-- A sampled (`sampled == 1`) buffer-dimension image type. -/
def imgTi : Instruction :=
  ⟨.TypeImage, some 1, none,
    [.IdRef 9, .Dim .Buffer, .LiteralInt32 0, .LiteralInt32 0, .LiteralInt32 0,
     .LiteralInt32 1, .LiteralInt32 0]⟩

/-- A module declaring just `imgTi`. -/
def imgM : SpvModule := ⟨some (1, 0), [imgTi], [], [], []⟩

/-- Witness for C3: the concrete buffer-dimension sampled image
classifies as `UNIFORM_TEXEL_BUFFER`. -/
theorem claim_C3_witness :
    get_descriptor_type imgM 1 imgTi .UniformConstant =
      .ok ⟨DescriptorType.UNIFORM_TEXEL_BUFFER, .One, ""⟩ :=
  (claim_C3 imgM 0 imgTi .UniformConstant [] .Buffer 1 rfl (by decide) (by decide)
    (by decide)).1 rfl rfl

/-! ## Claim C5: struct classification at version exactly (1, 3) -/

/-- C5: at module version exactly `(1, 3)` both `Block` and
`BufferBlock` struct decorations are accepted: `BufferBlock` classifies
as `STORAGE_BUFFER` (the `BufferBlock` path is preferred), and `Block`
without `BufferBlock` dispatches on the variable's storage class. -/
theorem claim_C5 (m : SpvModule) (fuel : Nat) (ti : Instruction) (sc : StorageClass)
    (anns : List Instruction)
    (hop : ti.opcode = .TypeStruct)
    (hann : annotationsFor m ti = .ok anns)
    (hver : m.header = some (1, 3)) :
    (hasDecoration anns .BufferBlock = true →
      get_descriptor_type m (fuel + 1) ti sc =
        .ok ⟨DescriptorType.STORAGE_BUFFER, .One, ""⟩) ∧
    (hasDecoration anns .BufferBlock = false → hasDecoration anns .Block = true →
      ((sc = .Uniform ∨ sc = .UniformConstant) →
        get_descriptor_type m (fuel + 1) ti sc =
          .ok ⟨DescriptorType.UNIFORM_BUFFER, .One, ""⟩) ∧
      (sc = .StorageBuffer →
        get_descriptor_type m (fuel + 1) ti sc =
          .ok ⟨DescriptorType.STORAGE_BUFFER, .One, ""⟩) ∧
      (sc ≠ .Uniform → sc ≠ .UniformConstant → sc ≠ .StorageBuffer →
        get_descriptor_type m (fuel + 1) ti sc =
          .error (.err (.UnknownStorageClass sc)))) := by
  constructor
  · intro hbb
    simp [get_descriptor_type, hop, hann, ok_bind, classifyStruct, hver, hbb, verLE]
  · intro hbb hb
    refine ⟨?_, ?_, ?_⟩
    · rintro (hsc | hsc) <;>
        simp [get_descriptor_type, hop, hann, ok_bind, classifyStruct, hver, hbb, hb,
          verLE, hsc]
    · intro hsc
      simp [get_descriptor_type, hop, hann, ok_bind, classifyStruct, hver, hbb, hb,
        verLE, hsc]
    · intro h1 h2 h3
      cases sc <;> simp_all [get_descriptor_type, hop, hann, ok_bind, error_bind,
        classifyStruct, hver, verLE]

/-- An undecorated struct type with result id 1. -/
def structTi51 : Instruction := ⟨.TypeStruct, some 1, none, []⟩

/-- A `BufferBlock` decoration on id 1. -/
def bbAnn : Instruction := ⟨.Decorate, none, none, [.IdRef 1, .Decoration .BufferBlock]⟩

/-- A version-(1,3) module with a `BufferBlock`-decorated struct. -/
def structM51 : SpvModule := ⟨some (1, 3), [structTi51], [bbAnn], [], []⟩

/-- Witness for C5: at version (1,3) the `BufferBlock`-decorated struct
classifies as `STORAGE_BUFFER`. -/
theorem claim_C5_witness :
    get_descriptor_type structM51 1 structTi51 .Uniform =
      .ok ⟨DescriptorType.STORAGE_BUFFER, .One, ""⟩ :=
  (claim_C5 structM51 0 structTi51 .Uniform [bbAnn] rfl (by decide) rfl).1 (by decide)

/-! ## Claim C8: array-length integer widths -/

/-- C8: when resolving a `TypeArray` length, a defining constant whose
`TypeInt` result type has width 32 or 64 is accepted (read as a 32-bit
or 64-bit literal respectively), and any other width `w` fails with
`UnexpectedIntWidth w`. -/
theorem claim_C8 (m : SpvModule) (fuel : Nat) (ti ne nety : Instruction)
    (sc : StorageClass) (anns : List Instruction)
    (etid nid netyid w : Nat)
    (hop : ti.opcode = .TypeArray)
    (hann : annotationsFor m ti = .ok anns)
    (h0 : getIdRefAt ti 0 = .ok etid)
    (h1 : getIdRefAt ti 1 = .ok nid)
    (hne : find_assignment_for m.types_global_values nid = .ok ne)
    (hc : ne.opcode = .Constant)
    (hrt : ne.result_type = some netyid)
    (hnety : find_assignment_for m.types_global_values netyid = .ok nety)
    (hti : nety.opcode = .TypeInt)
    (hw : getLiteralInt32At nety 0 = .ok w) :
    (w ≠ 32 → w ≠ 64 →
      get_descriptor_type m (fuel + 1) ti sc = .error (.err (.UnexpectedIntWidth w))) ∧
    (∀ n elem_ti d, w = 32 → getLiteralInt32At ne 0 = .ok n → 1 ≤ n →
      find_assignment_for m.types_global_values etid = .ok elem_ti →
      get_descriptor_type m fuel elem_ti sc = .ok d →
      get_descriptor_type m (fuel + 1) ti sc =
        .ok { d with binding_count := .StaticSized n }) ∧
    (∀ n elem_ti d, w = 64 → getLiteralInt64At ne 0 = .ok n → 1 ≤ n →
      find_assignment_for m.types_global_values etid = .ok elem_ti →
      get_descriptor_type m fuel elem_ti sc = .ok d →
      get_descriptor_type m (fuel + 1) ti sc =
        .ok { d with binding_count := .StaticSized n }) := by
  refine ⟨?_, ?_, ?_⟩
  · intro hw32 hw64
    simp [get_descriptor_type, hop, hann, ok_bind, error_bind, h0, h1, hne, hc, hrt,
      unwrapOption, hnety, hti, hw, hw32, hw64, assertPanic]
  · intro n elem_ti d h32 hn hn1 helem hd
    simp [get_descriptor_type, hop, hann, ok_bind, h0, h1, hne, hc, hrt,
      unwrapOption, hnety, hti, hw, h32, hn, hn1, helem, hd, assertPanic]
  · intro n elem_ti d h64 hn hn1 helem hd
    simp [get_descriptor_type, hop, hann, ok_bind, h0, h1, hne, hc, hrt,
      unwrapOption, hnety, hti, hw, h64, hn, hn1, helem, hd, assertPanic]

/-- An 8-bit integer type. -/
def int8Ti : Instruction := ⟨.TypeInt, some 1, none, [.LiteralInt32 8]⟩

/-- A constant of the 8-bit integer type with value 5. -/
def cst5 : Instruction := ⟨.Constant, some 2, some 1, [.LiteralInt32 5]⟩

/-- A sampler type with result id 4. -/
def samp4 : Instruction := ⟨.TypeSampler, some 4, none, []⟩

/-- An array of samplers whose length constant has 8-bit type. -/
def arrTi : Instruction := ⟨.TypeArray, some 3, none, [.IdRef 4, .IdRef 2]⟩

/-- The module holding the 8-bit-length array. -/
def arrM : SpvModule := ⟨some (1, 0), [int8Ti, cst5, samp4, arrTi], [], [], []⟩

/-- Witness for C8: width 8 is rejected with `UnexpectedIntWidth 8`. -/
theorem claim_C8_witness :
    get_descriptor_type arrM 1 arrTi .UniformConstant =
      .error (.err (.UnexpectedIntWidth 8)) :=
  (claim_C8 arrM 0 arrTi cst5 int8Ti .UniformConstant [] 4 2 1 8 rfl (by decide)
    (by decide) (by decide) (by decide) rfl rfl (by decide) rfl (by decide)).1
    (by decide) (by decide)

/-! ## Claim C1: binding-count classification -/

theorem assertPanic_true {msg : String} : assertPanic true msg = .ok () := rfl

theorem assertPanic_false {msg : String} :
    assertPanic false msg = .error (.panic msg) := rfl

/-- Spec-side reading of a `TypeArray`'s length constant: resolve
operand 1 to its defining constant, resolve the constant's `TypeInt`
result type, and read the constant as a 32-bit or 64-bit literal
according to the width operand. -/
def arrayLengthConstant (m : SpvModule) (ti : Instruction) : Except Failure Nat :=
  match getIdRefAt ti 1 with
  | .error e => .error e
  | .ok nid =>
    match find_assignment_for m.types_global_values nid with
    | .error e => .error e
    | .ok ne =>
      match unwrapOption ne.result_type with
      | .error e => .error e
      | .ok netyid =>
        match find_assignment_for m.types_global_values netyid with
        | .error e => .error e
        | .ok nety =>
          match getLiteralInt32At nety 0 with
          | .error e => .error e
          | .ok w =>
            if w = 32 then getLiteralInt32At ne 0
            else if w = 64 then getLiteralInt64At ne 0
            else .error (.err (.UnexpectedIntWidth w))

/-- Inversion of the `TypeArray` arm of `get_descriptor_type`. -/
theorem gdt_array_ok {m : SpvModule} {fuel : Nat} {ti : Instruction}
    {sc : StorageClass} {info : DescriptorInfo}
    (hop : ti.opcode = .TypeArray)
    (h : get_descriptor_type m (fuel + 1) ti sc = .ok info) :
    ∃ n d etid elem_ti,
      getIdRefAt ti 0 = .ok etid ∧
      arrayLengthConstant m ti = .ok n ∧ 1 ≤ n ∧
      find_assignment_for m.types_global_values etid = .ok elem_ti ∧
      get_descriptor_type m fuel elem_ti sc = .ok d ∧
      info = { d with binding_count := .StaticSized n } := by
  simp only [get_descriptor_type, hop] at h
  cases ha : annotationsFor m ti with
  | error e => simp [ha, error_bind] at h
  | ok anns =>
  simp only [ha, ok_bind] at h
  cases h0 : getIdRefAt ti 0 with
  | error e => simp [h0, error_bind] at h
  | ok etid =>
  simp only [h0, ok_bind] at h
  cases h1 : getIdRefAt ti 1 with
  | error e => simp [h1, error_bind] at h
  | ok nid =>
  simp only [h1, ok_bind] at h
  cases hne : find_assignment_for m.types_global_values nid with
  | error e => simp [hne, error_bind] at h
  | ok ne =>
  simp only [hne, ok_bind] at h
  cases hco : (ne.opcode == Op.Constant) with
  | false => simp [hco, assertPanic_false, error_bind] at h
  | true =>
  simp only [hco, assertPanic_true, ok_bind] at h
  cases hrt : ne.result_type with
  | none => simp [hrt, unwrapOption, error_bind] at h
  | some netyid =>
  simp only [hrt, unwrapOption, ok_bind] at h
  cases hnety : find_assignment_for m.types_global_values netyid with
  | error e => simp [hnety, error_bind] at h
  | ok nety =>
  simp only [hnety, ok_bind] at h
  cases hio : (nety.opcode == Op.TypeInt) with
  | false => simp [hio, assertPanic_false, error_bind] at h
  | true =>
  simp only [hio, assertPanic_true, ok_bind] at h
  cases hw : getLiteralInt32At nety 0 with
  | error e => simp [hw, error_bind] at h
  | ok w =>
  simp only [hw, ok_bind] at h
  split at h
  · next hw32 =>
    cases hn : getLiteralInt32At ne 0 with
    | error e => simp [hn, error_bind] at h
    | ok n =>
    simp only [hn, ok_bind] at h
    cases hd1 : decide (1 ≤ n) with
    | false => simp [hd1, assertPanic_false, error_bind] at h
    | true =>
    simp only [hd1, assertPanic_true, ok_bind] at h
    cases helem : find_assignment_for m.types_global_values etid with
    | error e => simp [helem, error_bind] at h
    | ok elem_ti =>
    simp only [helem, ok_bind] at h
    cases hrec : get_descriptor_type m fuel elem_ti sc with
    | error e => simp [hrec, error_bind] at h
    | ok d =>
    simp only [hrec, ok_bind, Except.ok.injEq] at h
    refine ⟨n, d, etid, elem_ti, rfl, ?_, of_decide_eq_true hd1, helem, hrec, h.symm⟩
    simp [arrayLengthConstant, h1, hne, unwrapOption, hrt, hnety, hw, hw32, hn]
  · split at h
    · next hw32 hw64 =>
      cases hn : getLiteralInt64At ne 0 with
      | error e => simp [hn, error_bind] at h
      | ok n =>
      simp only [hn, ok_bind] at h
      cases hd1 : decide (1 ≤ n) with
      | false => simp [hd1, assertPanic_false, error_bind] at h
      | true =>
      simp only [hd1, assertPanic_true, ok_bind] at h
      cases helem : find_assignment_for m.types_global_values etid with
      | error e => simp [helem, error_bind] at h
      | ok elem_ti =>
      simp only [helem, ok_bind] at h
      cases hrec : get_descriptor_type m fuel elem_ti sc with
      | error e => simp [hrec, error_bind] at h
      | ok d =>
      simp only [hrec, ok_bind, Except.ok.injEq] at h
      refine ⟨n, d, etid, elem_ti, rfl, ?_, of_decide_eq_true hd1, helem, hrec, h.symm⟩
      simp [arrayLengthConstant, h1, hne, unwrapOption, hrt, hnety, hw, hw32, hw64, hn]
    · simp [error_bind] at h

/-- Inversion of the `TypeRuntimeArray` arm of `get_descriptor_type`. -/
theorem gdt_runtime_array_ok {m : SpvModule} {fuel : Nat} {ti : Instruction}
    {sc : StorageClass} {info : DescriptorInfo}
    (hop : ti.opcode = .TypeRuntimeArray)
    (h : get_descriptor_type m (fuel + 1) ti sc = .ok info) :
    ∃ d etid elem_ti,
      getIdRefAt ti 0 = .ok etid ∧
      find_assignment_for m.types_global_values etid = .ok elem_ti ∧
      get_descriptor_type m fuel elem_ti sc = .ok d ∧
      info = { d with binding_count := .Unbounded } := by
  simp only [get_descriptor_type, hop] at h
  cases ha : annotationsFor m ti with
  | error e => simp [ha, error_bind] at h
  | ok anns =>
  simp only [ha, ok_bind] at h
  cases h0 : getIdRefAt ti 0 with
  | error e => simp [h0, error_bind] at h
  | ok etid =>
  simp only [h0, ok_bind] at h
  cases helem : find_assignment_for m.types_global_values etid with
  | error e => simp [helem, error_bind] at h
  | ok elem_ti =>
  simp only [helem, ok_bind] at h
  cases hrec : get_descriptor_type m fuel elem_ti sc with
  | error e => simp [hrec, error_bind] at h
  | ok d =>
  simp only [hrec, ok_bind, Except.ok.injEq] at h
  exact ⟨d, etid, elem_ti, rfl, helem, hrec, h.symm⟩

/-- Inversion of the `TypePointer` arm of `get_descriptor_type`. -/
theorem gdt_pointer_ok {m : SpvModule} {fuel : Nat} {ti : Instruction}
    {sc : StorageClass} {info : DescriptorInfo}
    (hop : ti.opcode = .TypePointer)
    (h : get_descriptor_type m (fuel + 1) ti sc = .ok info) :
    ∃ etid elem_ti,
      getIdRefAt ti 1 = .ok etid ∧
      find_assignment_for m.types_global_values etid = .ok elem_ti ∧
      get_descriptor_type m fuel elem_ti sc = .ok info := by
  simp only [get_descriptor_type, hop] at h
  cases ha : annotationsFor m ti with
  | error e => simp [ha, error_bind] at h
  | ok anns =>
  simp only [ha, ok_bind] at h
  cases hpsc : getStorageClassAt ti 0 with
  | error e => simp [hpsc, error_bind] at h
  | ok psc =>
  simp only [hpsc, ok_bind] at h
  cases h1 : getIdRefAt ti 1 with
  | error e => simp [h1, error_bind] at h
  | ok etid =>
  simp only [h1, ok_bind] at h
  cases hsc : (sc == psc) with
  | false => simp [hsc, assertPanic_false, error_bind] at h
  | true =>
  simp only [hsc, assertPanic_true, ok_bind] at h
  cases helem : find_assignment_for m.types_global_values etid with
  | error e => simp [helem, error_bind] at h
  | ok elem_ti =>
  simp only [helem, ok_bind] at h
  exact ⟨etid, elem_ti, rfl, helem, h⟩

/-- Inversion of the `TypeSampledImage` arm of `get_descriptor_type`:
the resulting binding count is that of the recursed image type. -/
theorem gdt_sampled_image_ok {m : SpvModule} {fuel : Nat} {ti : Instruction}
    {sc : StorageClass} {info : DescriptorInfo}
    (hop : ti.opcode = .TypeSampledImage)
    (h : get_descriptor_type m (fuel + 1) ti sc = .ok info) :
    ∃ etid img d,
      getIdRefAt ti 0 = .ok etid ∧
      find_assignment_for m.types_global_values etid = .ok img ∧
      get_descriptor_type m fuel img sc = .ok d ∧
      info.binding_count = d.binding_count := by
  simp only [get_descriptor_type, hop] at h
  cases ha : annotationsFor m ti with
  | error e => simp [ha, error_bind] at h
  | ok anns =>
  simp only [ha, ok_bind] at h
  cases h0 : getIdRefAt ti 0 with
  | error e => simp [h0, error_bind] at h
  | ok etid =>
  simp only [h0, ok_bind] at h
  cases himg : find_assignment_for m.types_global_values etid with
  | error e => simp [himg, error_bind] at h
  | ok img =>
  simp only [himg, ok_bind] at h
  cases hrec : get_descriptor_type m fuel img sc with
  | error e => simp [hrec, error_bind] at h
  | ok d =>
  simp only [hrec, ok_bind] at h
  cases hdim : getDimAt img 1 with
  | error e => simp [hdim, error_bind] at h
  | ok dim =>
  simp only [hdim, ok_bind] at h
  cases hsp : (!(dim == Dim.SubpassData)) with
  | false => simp [hsp, assertPanic_false, error_bind] at h
  | true =>
  simp only [hsp, assertPanic_true, ok_bind] at h
  refine ⟨etid, img, d, rfl, himg, hrec, ?_⟩
  split at h
  · split at h
    · simp at h
    · rw [Except.ok.injEq] at h; rw [← h]
  · rw [Except.ok.injEq] at h; rw [← h]

/-- Inversion of the base arms of `get_descriptor_type`: any opcode
other than the four recursive ones yields `binding_count = One` (or
fails). -/
theorem gdt_base_one {m : SpvModule} {fuel : Nat} {ti : Instruction}
    {sc : StorageClass} {info : DescriptorInfo}
    (hop1 : ti.opcode ≠ .TypeArray) (hop2 : ti.opcode ≠ .TypeRuntimeArray)
    (hop3 : ti.opcode ≠ .TypePointer) (hop4 : ti.opcode ≠ .TypeSampledImage)
    (h : get_descriptor_type m (fuel + 1) ti sc = .ok info) :
    info.binding_count = .One := by
  simp only [get_descriptor_type] at h
  cases ha : annotationsFor m ti with
  | error e => simp [ha, error_bind] at h
  | ok anns =>
  simp only [ha, ok_bind] at h
  cases hop : ti.opcode <;> rw [hop] at h
  case TypeArray => exact absurd hop hop1
  case TypeRuntimeArray => exact absurd hop hop2
  case TypePointer => exact absurd hop hop3
  case TypeSampledImage => exact absurd hop hop4
  case TypeSampler => rw [Except.ok.injEq] at h; rw [← h]
  case TypeAccelerationStructureKHR => rw [Except.ok.injEq] at h; rw [← h]
  case TypeImage =>
    cases hc : classifyImage ti with
    | error e => simp [hc, error_bind] at h
    | ok t =>
      simp only [hc, ok_bind, Except.ok.injEq] at h
      rw [← h]
  case TypeStruct =>
    cases hc : classifyStruct m ti anns sc with
    | error e => simp [hc, error_bind] at h
    | ok t =>
      simp only [hc, ok_bind, Except.ok.injEq] at h
      rw [← h]
  all_goals simp at h

/-- An `Unbounded` binding count can only originate in a
`TypeRuntimeArray` node. -/
theorem gdt_unbounded_source (m : SpvModule) :
    ∀ fuel ti sc info, get_descriptor_type m fuel ti sc = .ok info →
      info.binding_count = .Unbounded →
      ti.opcode = .TypeRuntimeArray ∨
        ∃ j ∈ m.types_global_values, j.opcode = .TypeRuntimeArray := by
  intro fuel
  induction fuel with
  | zero => intro ti sc info h; simp [get_descriptor_type] at h
  | succ fuel ih =>
    intro ti sc info h hU
    by_cases hop2 : ti.opcode = .TypeRuntimeArray
    · exact Or.inl hop2
    by_cases hop1 : ti.opcode = .TypeArray
    · obtain ⟨n, d, -, -, -, -, -, -, -, hinfo⟩ := gdt_array_ok hop1 h
      rw [hinfo] at hU
      simp at hU
    by_cases hop3 : ti.opcode = .TypePointer
    · obtain ⟨etid, elem_ti, -, helem, hrec⟩ := gdt_pointer_ok hop3 h
      rcases ih elem_ti sc info hrec hU with hr | hex
      · exact Or.inr ⟨elem_ti, find_assignment_for_mem helem, hr⟩
      · exact Or.inr hex
    by_cases hop4 : ti.opcode = .TypeSampledImage
    · obtain ⟨etid, img, d, -, himg, hrec, hbc⟩ := gdt_sampled_image_ok hop4 h
      rw [hbc] at hU
      rcases ih img sc d hrec hU with hr | hex
      · exact Or.inr ⟨img, find_assignment_for_mem himg, hr⟩
      · exact Or.inr hex
    · have := gdt_base_one hop1 hop2 hop3 hop4 h
      rw [this] at hU
      simp at hU

/-- C1: for every variable classified by the type classifier, a
`TypeRuntimeArray` node yields `binding_count = Unbounded`, a `TypeArray`
node whose length constant is `n` yields `StaticSized n` with `n ≥ 1`,
every other terminal type node yields `One`, and `Unbounded` arises from
no node other than `TypeRuntimeArray`. -/
theorem claim_C1 (m : SpvModule) (fuel : Nat) (ti : Instruction) (sc : StorageClass)
    (info : DescriptorInfo)
    (h : get_descriptor_type m fuel ti sc = .ok info) :
    (ti.opcode = .TypeRuntimeArray → info.binding_count = .Unbounded) ∧
    (ti.opcode = .TypeArray →
      ∃ n, arrayLengthConstant m ti = .ok n ∧ 1 ≤ n ∧
        info.binding_count = .StaticSized n) ∧
    (ti.opcode ≠ .TypeArray → ti.opcode ≠ .TypeRuntimeArray →
      ti.opcode ≠ .TypePointer → ti.opcode ≠ .TypeSampledImage →
      info.binding_count = .One) ∧
    (info.binding_count = .Unbounded →
      ti.opcode = .TypeRuntimeArray ∨
        ∃ j ∈ m.types_global_values, j.opcode = .TypeRuntimeArray) := by
  cases fuel with
  | zero => simp [get_descriptor_type] at h
  | succ fuel =>
    refine ⟨?_, ?_, ?_, ?_⟩
    · intro hop
      obtain ⟨d, etid, elem_ti, -, -, -, hinfo⟩ := gdt_runtime_array_ok hop h
      rw [hinfo]
    · intro hop
      obtain ⟨n, d, etid, elem_ti, -, hlen, hn1, -, -, hinfo⟩ := gdt_array_ok hop h
      exact ⟨n, hlen, hn1, by rw [hinfo]⟩
    · intro h1 h2 h3 h4
      exact gdt_base_one h1 h2 h3 h4 h
    · intro hU
      exact gdt_unbounded_source m (fuel + 1) ti sc info h hU

def rtaTi : Instruction := ⟨.TypeRuntimeArray, some 2, none, [.IdRef 4]⟩
def rtaM : SpvModule := ⟨some (1, 0), [samp4, rtaTi], [], [], []⟩

/-- Witness for C1. -/
theorem claim_C1_witness :
    get_descriptor_type rtaM 2 rtaTi .UniformConstant =
      .ok ⟨DescriptorType.SAMPLER, .Unbounded, ""⟩ ∧
    (⟨DescriptorType.SAMPLER, .Unbounded, ""⟩ : DescriptorInfo).binding_count =
      .Unbounded :=
  ⟨by decide,
    (claim_C1 rtaM 2 rtaTi .UniformConstant ⟨DescriptorType.SAMPLER, .Unbounded, ""⟩
      (by decide)).1 rfl⟩

/-! ## Claim C2: struct byte size -/

/-- Spec-side reading of one annotation for the struct-offset rule: a
`MemberDecorate` whose operand 2 is `Decoration::Offset` contributes the
`LiteralInt32` at operand 3. -/
def memberOffsetOf (a : Instruction) : Option Nat :=
  if a.opcode = .MemberDecorate then
    match a.operands[2]?, a.operands[3]? with
    | some (Operand.Decoration .Offset), some (Operand.LiteralInt32 v) => some v
    | _, _ => none
  else none

/-- Spec-side struct offset: the maximum `Offset` decoration across the
`MemberDecorate` annotations (0 when there are none). -/
def specMaxMemberOffset (anns : List Instruction) : Nat :=
  (anns.filterMap memberOffsetOf).foldr max 0

/-- When the offset collection succeeds it agrees with the spec-side
reading of the annotations. -/
theorem collectOffsets_ok : ∀ {anns : List Instruction} {offs : List Nat},
    collectOffsets anns = .ok offs → offs = anns.filterMap memberOffsetOf := by
  intro anns
  induction anns with
  | nil => intro offs h; simp [collectOffsets] at h; simp [← h]
  | cons a rest ih =>
    intro offs h
    rw [collectOffsets] at h
    by_cases hmd : a.opcode = .MemberDecorate
    · rw [if_pos hmd] at h
      cases hd : getDecorationAt a 2 with
      | error e => simp [hd] at h
      | ok d =>
        simp only [hd] at h
        by_cases hoff : d = .Offset
        · rw [if_pos hoff] at h
          cases hv : getLiteralInt32At a 3 with
          | error e => simp [hv] at h
          | ok v =>
            simp only [hv] at h
            cases hrest : collectOffsets rest with
            | error e => rw [hrest] at h; exact absurd h (by simp)
            | ok l =>
              simp only [hrest, Except.ok.injEq] at h
              have h2 : a.operands[2]? = some (Operand.Decoration .Offset) := by
                rw [← hoff]; exact getDecorationAt_ok_iff.mp hd
              have h3 : a.operands[3]? = some (Operand.LiteralInt32 v) :=
                getLiteralInt32At_ok_iff.mp hv
              rw [← h, ih hrest]
              simp [List.filterMap_cons, memberOffsetOf, hmd, h2, h3]
        · rw [if_neg hoff] at h
          have h2 : a.operands[2]? = some (Operand.Decoration d) :=
            getDecorationAt_ok_iff.mp hd
          rw [ih h]
          have : memberOffsetOf a = none := by
            simp only [memberOffsetOf, hmd, if_pos, h2]
            cases d <;> simp_all
          simp [List.filterMap_cons, this]
    · rw [if_neg hmd] at h
      rw [ih h]
      have : memberOffsetOf a = none := by simp [memberOffsetOf, hmd]
      simp [List.filterMap_cons, this]

/-- C2: for every `TypeStruct` instruction,
`calculate_variable_size_bytes` returns 0 when the struct has no
members; otherwise it returns the byte offset of the last member plus
the size of the last member's type, where the last member's offset is
the maximum `Offset` decoration over all `MemberDecorate` annotations on
the struct's result-id, and that offset is 0 when the struct has fewer
than two members. -/
theorem claim_C2 (m : SpvModule) (fuel : Nat) (ti : Instruction)
    (hop : ti.opcode = .TypeStruct) :
    (ti.operands = [] → calculate_variable_size_bytes m (fuel + 1) ti = .ok 0) ∧
    (∀ n, ti.operands ≠ [] → calculate_variable_size_bytes m (fuel + 1) ti = .ok n →
      ∃ off last_id last_ti sz,
        byte_offset_to_last_var m ti = .ok off ∧
        getIdRefAt ti (ti.operands.length - 1) = .ok last_id ∧
        find_assignment_for m.types_global_values last_id = .ok last_ti ∧
        calculate_variable_size_bytes m fuel last_ti = .ok sz ∧
        n = off + sz) ∧
    (ti.operands.length < 2 → byte_offset_to_last_var m ti = .ok 0) ∧
    (∀ off rid anns, 2 ≤ ti.operands.length → ti.result_id = some rid →
      find_annotations_for_id m.annotations rid = .ok anns →
      byte_offset_to_last_var m ti = .ok off →
      off = specMaxMemberOffset anns) := by
  refine ⟨?_, ?_, ?_, ?_⟩
  · intro hemp
    simp [calculate_variable_size_bytes, hop, hemp]
  · intro n hne h
    simp only [calculate_variable_size_bytes, hop] at h
    have hlen : ti.operands.length ≠ 0 := by
      intro hc; exact hne (List.length_eq_zero.mp hc)
    rw [if_pos hlen] at h
    cases hoff : byte_offset_to_last_var m ti with
    | error e => simp [hoff, error_bind] at h
    | ok off =>
    simp only [hoff, ok_bind] at h
    cases hid : getIdRefAt ti (ti.operands.length - 1) with
    | error e => simp [hid, error_bind] at h
    | ok last_id =>
    simp only [hid, ok_bind] at h
    cases hlast : find_assignment_for m.types_global_values last_id with
    | error e => simp [hlast, error_bind] at h
    | ok last_ti =>
    simp only [hlast, ok_bind] at h
    cases hsz : calculate_variable_size_bytes m fuel last_ti with
    | error e => simp [hsz, error_bind] at h
    | ok sz =>
    simp only [hsz, ok_bind, Except.ok.injEq] at h
    exact ⟨off, last_id, last_ti, sz, rfl, rfl, hlast, hsz, h.symm⟩
  · intro hlt
    simp [byte_offset_to_last_var, hlt]
  · intro off rid anns h2 hrid hanns hoff
    rw [byte_offset_to_last_var, if_neg (by omega)] at hoff
    simp only [hrid, hanns] at hoff
    cases hco : collectOffsets anns with
    | error e => simp [hco] at hoff
    | ok offs =>
      simp only [hco, Except.ok.injEq] at hoff
      rw [← hoff, collectOffsets_ok hco]
      rfl

def int32Ti : Instruction := ⟨.TypeInt, some 1, none, [.LiteralInt32 32]⟩
def structTi2 : Instruction := ⟨.TypeStruct, some 2, none, [.IdRef 1, .IdRef 1]⟩
def md0 : Instruction :=
  ⟨.MemberDecorate, none, none,
    [.IdRef 2, .LiteralInt32 0, .Decoration .Offset, .LiteralInt32 0]⟩
def md1 : Instruction :=
  ⟨.MemberDecorate, none, none,
    [.IdRef 2, .LiteralInt32 1, .Decoration .Offset, .LiteralInt32 4]⟩
def structM2 : SpvModule := ⟨some (1, 0), [int32Ti, structTi2], [md0, md1], [], []⟩

/-- Witness for C2. -/
theorem claim_C2_witness :
    calculate_variable_size_bytes structM2 2 structTi2 = .ok 8 ∧
    (∃ off last_id last_ti sz,
      byte_offset_to_last_var structM2 structTi2 = .ok off ∧
      getIdRefAt structTi2 (structTi2.operands.length - 1) = .ok last_id ∧
      find_assignment_for structM2.types_global_values last_id = .ok last_ti ∧
      calculate_variable_size_bytes structM2 1 last_ti = .ok sz ∧
      8 = off + sz) :=
  ⟨by decide, (claim_C2 structM2 1 structTi2 rfl).2.1 8 (by decide) (by decide)⟩

/-! ## Claim C4: push-constant range cardinality -/

/-- A push-constant variable: an `OpVariable` whose storage-class
operand reads as `PushConstant`. -/
def isPushConstantVar (i : Instruction) : Prop :=
  i.opcode = .Variable ∧ getStorageClassAt i 0 = .ok StorageClass.PushConstant

instance (i : Instruction) : Decidable (isPushConstantVar i) := by
  unfold isPushConstantVar; infer_instance

/-- On a module whose `OpVariable`s all have readable storage classes,
the push-constant filter returns exactly the push-constant variables. -/
theorem collectPushConstants_wf : ∀ {l : List Instruction},
    (∀ i ∈ l, i.opcode = .Variable → ∃ c, getStorageClassAt i 0 = .ok c) →
    collectPushConstants l = .ok (l.filter (fun i => decide (isPushConstantVar i))) := by
  intro l
  induction l with
  | nil => intro _; simp [collectPushConstants]
  | cons a rest ih =>
    intro hwf
    have hrest := ih (fun i hi => hwf i (List.mem_cons_of_mem a hi))
    rw [collectPushConstants]
    by_cases hv : a.opcode = .Variable
    · obtain ⟨c, hc⟩ := hwf a (List.mem_cons_self a rest) hv
      rw [if_pos hv]
      simp only [hc]
      by_cases hpc : c = .PushConstant
      · subst hpc
        rw [if_pos rfl, hrest]
        have : decide (isPushConstantVar a) = true := by
          simp [isPushConstantVar, hv, hc]
        simp [List.filter_cons, this]
      · rw [if_neg hpc, hrest]
        have : decide (isPushConstantVar a) = false := by
          simp only [decide_eq_false_iff_not, isPushConstantVar, not_and]
          intro _ hcon
          rw [hc, Except.ok.injEq] at hcon
          exact hpc hcon
        simp [List.filter_cons, this]
    · rw [if_neg hv, hrest]
      have : decide (isPushConstantVar a) = false := by
        simp [isPushConstantVar, hv]
      simp [List.filter_cons, this]

/-! Error-shape lemmas: none of the helper computations can produce the
`TooManyPushConstants` error. -/

theorem getIdRefAt_error_ne_tm {i : Instruction} {idx : Nat} {e : Failure}
    (h : getIdRefAt i idx = .error e) : e ≠ .err .TooManyPushConstants := by
  unfold getIdRefAt at h
  split at h
  · split at h
    · exact absurd h (by simp)
    · rw [Except.error.injEq] at h
      rw [← h]; simp
  · rw [Except.error.injEq] at h
    rw [← h]; simp

theorem getLiteralInt32At_error_ne_tm {i : Instruction} {idx : Nat} {e : Failure}
    (h : getLiteralInt32At i idx = .error e) : e ≠ .err .TooManyPushConstants := by
  unfold getLiteralInt32At at h
  split at h
  · split at h
    · exact absurd h (by simp)
    · rw [Except.error.injEq] at h
      rw [← h]; simp
  · rw [Except.error.injEq] at h
    rw [← h]; simp

theorem getStorageClassAt_error_ne_tm {i : Instruction} {idx : Nat} {e : Failure}
    (h : getStorageClassAt i idx = .error e) : e ≠ .err .TooManyPushConstants := by
  unfold getStorageClassAt at h
  split at h
  · split at h
    · exact absurd h (by simp)
    · rw [Except.error.injEq] at h
      rw [← h]; simp
  · rw [Except.error.injEq] at h
    rw [← h]; simp

theorem getDecorationAt_error_ne_tm {i : Instruction} {idx : Nat} {e : Failure}
    (h : getDecorationAt i idx = .error e) : e ≠ .err .TooManyPushConstants := by
  unfold getDecorationAt at h
  split at h
  · split at h
    · exact absurd h (by simp)
    · rw [Except.error.injEq] at h
      rw [← h]; simp
  · rw [Except.error.injEq] at h
    rw [← h]; simp

theorem find_assignment_for_error_ne_tm {l : List Instruction} {id : Nat} {e : Failure}
    (h : find_assignment_for l id = .error e) : e ≠ .err .TooManyPushConstants := by
  unfold find_assignment_for at h
  split at h
  · exact absurd h (by simp)
  · rw [Except.error.injEq] at h
    rw [← h]; simp

theorem unwrapOption_error_ne_tm {α : Type} {o : Option α} {e : Failure}
    (h : unwrapOption o = .error e) : e ≠ .err .TooManyPushConstants := by
  cases o with
  | none =>
    rw [unwrapOption, Except.error.injEq] at h
    rw [← h]; simp
  | some a => simp [unwrapOption] at h

theorem assertPanic_error_ne_tm {b : Bool} {msg : String} {e : Failure}
    (h : assertPanic b msg = .error e) : e ≠ .err .TooManyPushConstants := by
  cases b with
  | false =>
    rw [assertPanic_false, Except.error.injEq] at h
    rw [← h]; simp
  | true => simp [assertPanic_true] at h

theorem find_annotations_error_ne_tm : ∀ {l : List Instruction} {id : Nat} {e : Failure},
    find_annotations_for_id l id = .error e → e ≠ .err .TooManyPushConstants := by
  intro l
  induction l with
  | nil => intro id e h; simp [find_annotations_for_id] at h
  | cons a rest ih =>
    intro id e h
    rw [find_annotations_for_id] at h
    cases ha : getIdRefAt a 0 with
    | error e2 =>
      simp only [ha, Except.error.injEq] at h
      rw [← h]
      exact getIdRefAt_error_ne_tm ha
    | ok v =>
      simp only [ha] at h
      cases hrest : find_annotations_for_id rest id with
      | error e2 =>
        simp only [hrest, Except.error.injEq] at h
        rw [← h]
        exact ih hrest
      | ok l2 => simp [hrest] at h

theorem collectOffsets_error_ne_tm : ∀ {l : List Instruction} {e : Failure},
    collectOffsets l = .error e → e ≠ .err .TooManyPushConstants := by
  intro l
  induction l with
  | nil => intro e h; simp [collectOffsets] at h
  | cons a rest ih =>
    intro e h
    rw [collectOffsets] at h
    split at h
    · cases hd : getDecorationAt a 2 with
      | error e2 =>
        simp only [hd, Except.error.injEq] at h
        rw [← h]
        exact getDecorationAt_error_ne_tm hd
      | ok d =>
        simp only [hd] at h
        split at h
        · cases hv : getLiteralInt32At a 3 with
          | error e2 =>
            simp only [hv, Except.error.injEq] at h
            rw [← h]
            exact getLiteralInt32At_error_ne_tm hv
          | ok v =>
            simp only [hv] at h
            cases hrest : collectOffsets rest with
            | error e2 =>
              simp only [hrest, Except.error.injEq] at h
              rw [← h]
              exact ih hrest
            | ok l2 => simp [hrest] at h
        · exact ih h
    · exact ih h

theorem byte_offset_error_ne_tm {m : SpvModule} {ti : Instruction} {e : Failure}
    (h : byte_offset_to_last_var m ti = .error e) : e ≠ .err .TooManyPushConstants := by
  unfold byte_offset_to_last_var at h
  split at h
  · exact absurd h (by simp)
  · split at h
    · rw [Except.error.injEq] at h
      rw [← h]; simp
    · split at h
      · next heq =>
        rw [Except.error.injEq] at h
        rw [← h]
        exact find_annotations_error_ne_tm heq
      · split at h
        · next heq =>
          rw [Except.error.injEq] at h
          rw [← h]
          exact collectOffsets_error_ne_tm heq
        · exact absurd h (by simp)

theorem calc_error_ne_tm {m : SpvModule} : ∀ {fuel : Nat} {ti : Instruction} {e : Failure},
    calculate_variable_size_bytes m fuel ti = .error e →
    e ≠ .err .TooManyPushConstants := by
  intro fuel
  induction fuel with
  | zero =>
    intro ti e h
    simp only [calculate_variable_size_bytes, Except.error.injEq] at h
    rw [← h]
    simp
  | succ fuel ih =>
    intro ti e h
    rw [calculate_variable_size_bytes] at h
    split at h
    · -- TypeInt
      split at h
      · next heq =>
        rw [Except.error.injEq] at h
        rw [← h]
        exact getLiteralInt32At_error_ne_tm heq
      · exact absurd h (by simp)
    · -- TypeFloat
      split at h
      · next heq =>
        rw [Except.error.injEq] at h
        rw [← h]
        exact getLiteralInt32At_error_ne_tm heq
      · exact absurd h (by simp)
    · -- TypeVector
      cases h0 : getIdRefAt ti 0 with
      | error e2 =>
        simp only [h0, error_bind, Except.error.injEq] at h
        rw [← h]
        exact getIdRefAt_error_ne_tm h0
      | ok tid =>
      simp only [h0, ok_bind] at h
      cases hf : find_assignment_for m.types_global_values tid with
      | error e2 =>
        simp only [hf, error_bind, Except.error.injEq] at h
        rw [← h]
        exact find_assignment_for_error_ne_tm hf
      | ok vti =>
      simp only [hf, ok_bind] at h
      cases hs : calculate_variable_size_bytes m fuel vti with
      | error e2 =>
        simp only [hs, error_bind, Except.error.injEq] at h
        rw [← h]
        exact ih hs
      | ok sz =>
      simp only [hs, ok_bind] at h
      cases hc : getLiteralInt32At ti 1 with
      | error e2 =>
        simp only [hc, error_bind, Except.error.injEq] at h
        rw [← h]
        exact getLiteralInt32At_error_ne_tm hc
      | ok cnt =>
        simp only [hc, ok_bind] at h
        exact absurd h (by simp)
    · -- TypeMatrix
      cases h0 : getIdRefAt ti 0 with
      | error e2 =>
        simp only [h0, error_bind, Except.error.injEq] at h
        rw [← h]
        exact getIdRefAt_error_ne_tm h0
      | ok tid =>
      simp only [h0, ok_bind] at h
      cases hf : find_assignment_for m.types_global_values tid with
      | error e2 =>
        simp only [hf, error_bind, Except.error.injEq] at h
        rw [← h]
        exact find_assignment_for_error_ne_tm hf
      | ok vti =>
      simp only [hf, ok_bind] at h
      cases hs : calculate_variable_size_bytes m fuel vti with
      | error e2 =>
        simp only [hs, error_bind, Except.error.injEq] at h
        rw [← h]
        exact ih hs
      | ok sz =>
      simp only [hs, ok_bind] at h
      cases hc : getLiteralInt32At ti 1 with
      | error e2 =>
        simp only [hc, error_bind, Except.error.injEq] at h
        rw [← h]
        exact getLiteralInt32At_error_ne_tm hc
      | ok cnt =>
        simp only [hc, ok_bind] at h
        exact absurd h (by simp)
    · -- TypeArray
      cases h0 : getIdRefAt ti 0 with
      | error e2 =>
        simp only [h0, error_bind, Except.error.injEq] at h
        rw [← h]
        exact getIdRefAt_error_ne_tm h0
      | ok tid =>
      simp only [h0, ok_bind] at h
      cases hf : find_assignment_for m.types_global_values tid with
      | error e2 =>
        simp only [hf, error_bind, Except.error.injEq] at h
        rw [← h]
        exact find_assignment_for_error_ne_tm hf
      | ok vti =>
      simp only [hf, ok_bind] at h
      cases hs : calculate_variable_size_bytes m fuel vti with
      | error e2 =>
        simp only [hs, error_bind, Except.error.injEq] at h
        rw [← h]
        exact ih hs
      | ok sz =>
      simp only [hs, ok_bind] at h
      cases h1 : getIdRefAt ti 1 with
      | error e2 =>
        simp only [h1, error_bind, Except.error.injEq] at h
        rw [← h]
        exact getIdRefAt_error_ne_tm h1
      | ok cid =>
      simp only [h1, ok_bind] at h
      cases hcf : find_assignment_for m.types_global_values cid with
      | error e2 =>
        simp only [hcf, error_bind, Except.error.injEq] at h
        rw [← h]
        exact find_assignment_for_error_ne_tm hcf
      | ok ci =>
      simp only [hcf, ok_bind] at h
      cases hcc : getLiteralInt32At ci 0 with
      | error e2 =>
        simp only [hcc, error_bind, Except.error.injEq] at h
        rw [← h]
        exact getLiteralInt32At_error_ne_tm hcc
      | ok cnt =>
        simp only [hcc, ok_bind] at h
        exact absurd h (by simp)
    · -- TypeStruct
      split at h
      · cases hb : byte_offset_to_last_var m ti with
        | error e2 =>
          simp only [hb, error_bind, Except.error.injEq] at h
          rw [← h]
          exact byte_offset_error_ne_tm hb
        | ok off =>
        simp only [hb, ok_bind] at h
        cases hid : getIdRefAt ti (ti.operands.length - 1) with
        | error e2 =>
          simp only [hid, error_bind, Except.error.injEq] at h
          rw [← h]
          exact getIdRefAt_error_ne_tm hid
        | ok lid =>
        simp only [hid, ok_bind] at h
        cases hlf : find_assignment_for m.types_global_values lid with
        | error e2 =>
          simp only [hlf, error_bind, Except.error.injEq] at h
          rw [← h]
          exact find_assignment_for_error_ne_tm hlf
        | ok lti =>
        simp only [hlf, ok_bind] at h
        cases hls : calculate_variable_size_bytes m fuel lti with
        | error e2 =>
          simp only [hls, error_bind, Except.error.injEq] at h
          rw [← h]
          exact ih hls
        | ok sz =>
          simp only [hls, ok_bind] at h
          exact absurd h (by simp)
      · exact absurd h (by simp)
    · -- all other opcodes
      exact absurd h (by simp)

/-- With exactly one collected push-constant variable, the extractor
either succeeds with offset 0 or fails with an error other than
`TooManyPushConstants`. -/
theorem gpcr_single (m : SpvModule) (fuel : Nat) (pc : Instruction)
    (hcol : collectPushConstants m.types_global_values = .ok [pc]) :
    (∃ info, get_push_constant_range m fuel = .ok (some info) ∧ info.offset = 0) ∨
    (∃ e, get_push_constant_range m fuel = .error e ∧
      e ≠ .err .TooManyPushConstants) := by
  have hlen : ¬ (1 < ([pc] : List Instruction).length) := by simp
  cases hrt : pc.result_type with
  | none =>
    right
    refine ⟨.panic "called Option::unwrap on a None value", ?_, by simp⟩
    simp [get_push_constant_range, hcol, ok_bind, if_neg hlen, hrt, unwrapOption,
      error_bind]
  | some rt =>
  cases hfind : find_assignment_for m.types_global_values rt with
  | error e =>
    right
    refine ⟨e, ?_, find_assignment_for_error_ne_tm hfind⟩
    simp [get_push_constant_range, hcol, ok_bind, if_neg hlen, hrt, unwrapOption,
      hfind, error_bind]
  | ok instr =>
  by_cases hptr : instr.opcode = .TypePointer
  · cases hpsc : getStorageClassAt instr 0 with
    | error e =>
      right
      refine ⟨e, ?_, getStorageClassAt_error_ne_tm hpsc⟩
      simp [get_push_constant_range, hcol, ok_bind, if_neg hlen, hrt, unwrapOption,
        hfind, hptr, hpsc, error_bind]
    | ok psc =>
    cases hap : (StorageClass.PushConstant == psc) with
    | false =>
      right
      refine ⟨.panic "assertion failed: PushConstant == ptr_storage_class", ?_, by simp⟩
      simp [get_push_constant_range, hcol, ok_bind, if_neg hlen, hrt, unwrapOption,
        hfind, hptr, hpsc, hap, assertPanic_false, error_bind]
    | true =>
    cases hid : getIdRefAt instr 1 with
    | error e =>
      right
      refine ⟨e, ?_, getIdRefAt_error_ne_tm hid⟩
      simp [get_push_constant_range, hcol, ok_bind, if_neg hlen, hrt, unwrapOption,
        hfind, hptr, hpsc, hap, assertPanic_true, hid, error_bind]
    | ok etid =>
    cases helem : find_assignment_for m.types_global_values etid with
    | error e =>
      right
      refine ⟨e, ?_, find_assignment_for_error_ne_tm helem⟩
      simp [get_push_constant_range, hcol, ok_bind, if_neg hlen, hrt, unwrapOption,
        hfind, hptr, hpsc, hap, assertPanic_true, hid, helem, error_bind]
    | ok instr2 =>
    cases hsz : calculate_variable_size_bytes m fuel instr2 with
    | error e =>
      right
      refine ⟨e, ?_, calc_error_ne_tm hsz⟩
      simp [get_push_constant_range, hcol, ok_bind, if_neg hlen, hrt, unwrapOption,
        hfind, hptr, hpsc, hap, assertPanic_true, hid, helem, hsz, error_bind]
    | ok sz =>
      left
      refine ⟨⟨0, sz⟩, ?_, rfl⟩
      simp [get_push_constant_range, hcol, ok_bind, if_neg hlen, hrt, unwrapOption,
        hfind, hptr, hpsc, hap, assertPanic_true, hid, helem, hsz]
  · cases hsz : calculate_variable_size_bytes m fuel instr with
    | error e =>
      right
      refine ⟨e, ?_, calc_error_ne_tm hsz⟩
      simp [get_push_constant_range, hcol, ok_bind, if_neg hlen, hrt, unwrapOption,
        hfind, hptr, hsz, error_bind]
    | ok sz =>
      left
      refine ⟨⟨0, sz⟩, ?_, rfl⟩
      simp [get_push_constant_range, hcol, ok_bind, if_neg hlen, hrt, unwrapOption,
        hfind, hptr, hsz]

/-- C4: `get_push_constant_range` returns `Ok(None)` iff no `OpVariable`
has `PushConstant` storage class, returns `Err(TooManyPushConstants)`
iff two or more such variables exist, and for exactly one such variable
returns `Some(PushConstantInfo)` whose `offset` field is always 0
(stated for modules whose `OpVariable`s have readable storage-class
operands, so that the collection phase itself does not fail first). -/
theorem claim_C4 (m : SpvModule) (fuel : Nat)
    (hwf : ∀ i ∈ m.types_global_values, i.opcode = .Variable →
      ∃ c, getStorageClassAt i 0 = .ok c) :
    (get_push_constant_range m fuel = .ok none ↔
      ¬ ∃ i ∈ m.types_global_values, isPushConstantVar i) ∧
    (get_push_constant_range m fuel = .error (.err .TooManyPushConstants) ↔
      2 ≤ (m.types_global_values.filter
        (fun i => decide (isPushConstantVar i))).length) ∧
    (∀ info, get_push_constant_range m fuel = .ok (some info) →
      info.offset = 0 ∧
      (m.types_global_values.filter
        (fun i => decide (isPushConstantVar i))).length = 1) := by
  have hcol := collectPushConstants_wf hwf
  have hmem : (∃ i ∈ m.types_global_values, isPushConstantVar i) ↔
      (m.types_global_values.filter (fun i => decide (isPushConstantVar i))) ≠ [] := by
    constructor
    · rintro ⟨i, hi, hpv⟩ hc
      have hmemf : i ∈ m.types_global_values.filter
          (fun i => decide (isPushConstantVar i)) :=
        List.mem_filter.mpr ⟨hi, by simp [hpv]⟩
      rw [hc] at hmemf
      simp at hmemf
    · intro hne
      obtain ⟨i, hi⟩ := List.exists_mem_of_ne_nil _ hne
      have hmf := List.mem_filter.mp hi
      exact ⟨i, hmf.1, of_decide_eq_true hmf.2⟩
  obtain ⟨pcs, hp⟩ : ∃ l, m.types_global_values.filter
      (fun i => decide (isPushConstantVar i)) = l := ⟨_, rfl⟩
  rw [hp] at hcol hmem
  rw [hp]
  by_cases hlen : 1 < pcs.length
  · have hr : get_push_constant_range m fuel = .error (.err .TooManyPushConstants) := by
      simp [get_push_constant_range, hcol, ok_bind, if_pos hlen]
    have hne : pcs ≠ [] := by
      intro hc
      rw [hc] at hlen
      simp at hlen
    refine ⟨?_, ?_, ?_⟩
    · rw [hr]
      constructor
      · intro hc; exact absurd hc (by simp)
      · intro hno; exact absurd (hmem.mpr hne) hno
    · rw [hr]
      constructor
      · intro _; omega
      · intro _; rfl
    · intro info hinfo
      rw [hr] at hinfo
      exact absurd hinfo (by simp)
  · cases pcs with
    | nil =>
      have hr : get_push_constant_range m fuel = .ok none := by
        simp [get_push_constant_range, hcol, ok_bind]
      refine ⟨?_, ?_, ?_⟩
      · rw [hr]
        simp only [true_iff]
        rw [hmem]
        simp
      · rw [hr]
        constructor
        · intro hc; exact absurd hc (by simp)
        · intro hc; simp at hc
      · intro info hinfo
        rw [hr] at hinfo
        exact absurd hinfo (by simp)
    | cons pc rest =>
      have hle : (pc :: rest).length ≤ 1 := Nat.le_of_not_lt hlen
      have hr0 : rest.length = 0 := by rw [List.length_cons] at hle; omega
      have hrest : rest = [] := List.length_eq_zero.mp hr0
      subst hrest
      rcases gpcr_single m fuel pc hcol with ⟨info, hinfo, hoff⟩ | ⟨e, herr, hnetm⟩
      · refine ⟨?_, ?_, ?_⟩
        · rw [hinfo]
          constructor
          · intro hc; exact absurd hc (by simp)
          · intro hno; exact absurd (hmem.mpr (by simp)) hno
        · rw [hinfo]
          constructor
          · intro hc; exact absurd hc (by simp)
          · intro hc; simp at hc
        · intro info2 h2
          rw [hinfo, Except.ok.injEq, Option.some.injEq] at h2
          exact ⟨by rw [← h2]; exact hoff, rfl⟩
      · refine ⟨?_, ?_, ?_⟩
        · rw [herr]
          constructor
          · intro hc; exact absurd hc (by simp)
          · intro hno; exact absurd (hmem.mpr (by simp)) hno
        · rw [herr]
          constructor
          · intro hc
            rw [Except.error.injEq] at hc
            exact absurd hc hnetm
          · intro hc; simp at hc
        · intro info2 h2
          rw [herr] at h2
          exact absurd h2 (by simp)

/-- A push-constant variable over a pointer to a 32-bit integer. -/
def pcVar : Instruction := ⟨.Variable, some 3, some 2, [.StorageClass .PushConstant]⟩

/-- The pointer type of the push-constant variable. -/
def pcPtrTi : Instruction :=
  ⟨.TypePointer, some 2, none, [.StorageClass .PushConstant, .IdRef 1]⟩

/-- A module with exactly one push-constant variable. -/
def pcM : SpvModule := ⟨some (1, 0), [int32Ti, pcPtrTi, pcVar], [], [], []⟩

/-- Witness for C4. -/
theorem claim_C4_witness :
    (get_push_constant_range pcM 2 = .ok none ↔
      ¬ ∃ i ∈ pcM.types_global_values, isPushConstantVar i) ∧
    (get_push_constant_range pcM 2 = .error (.err .TooManyPushConstants) ↔
      2 ≤ (pcM.types_global_values.filter
        (fun i => decide (isPushConstantVar i))).length) ∧
    (∀ info, get_push_constant_range pcM 2 = .ok (some info) →
      info.offset = 0 ∧
      (pcM.types_global_values.filter
        (fun i => decide (isPushConstantVar i))).length = 1) :=
  claim_C4 pcM 2 (by
    intro i hi hv
    simp only [pcM, List.mem_cons, List.mem_singleton, List.not_mem_nil] at hi
    rcases hi with rfl | rfl | rfl | hfalse
    · exact absurd hv (by decide)
    · exact absurd hv (by decide)
    · exact ⟨.PushConstant, by decide⟩
    · exact absurd hfalse (by simp))

/-! ## Claim C6: workgroup-size extraction -/

theorem scan_eq_findSome : ∀ l : List Instruction,
    (∀ i ∈ l, i.opcode = .ExecutionMode → i.operands ≠ []) →
    computeGroupSizeScan l = .ok (l.findSome? matchesLocalSize) := by
  intro l
  induction l with
  | nil => intro _; simp [computeGroupSizeScan, List.findSome?_nil]
  | cons inst rest ih =>
    intro hwf
    have hr := ih (fun i hi => hwf i (List.mem_cons_of_mem _ hi))
    rw [computeGroupSizeScan, List.findSome?_cons]
    by_cases hem : inst.opcode = .ExecutionMode
    · rw [if_pos hem]
      cases hops : inst.operands with
      | nil => exact absurd hops (hwf inst (List.mem_cons_self _ _) hem)
      | cons o ops =>
        have hml : matchesLocalSize inst = localSizeOf ops := by
          rw [matchesLocalSize, if_pos hem, hops]
        rw [hml]
        cases hls : localSizeOf ops with
        | some xyz => simp [hls]
        | none => simpa [hls] using hr
    · rw [if_neg hem]
      have hml : matchesLocalSize inst = none := by
        rw [matchesLocalSize, if_neg hem]
      rw [hml]
      exact hr

/-- C6 (amended): `get_compute_group_size` returns `Some((x, y, z))`
from the first `OpExecutionMode` whose operands starting at position 1
are exactly `ExecutionMode(LocalSize | LocalSizeHint), LiteralInt32(x),
LiteralInt32(y), LiteralInt32(z)`; it returns `None` when no such
instruction exists, and a malformed `OpExecutionMode` with at least one
operand is silently skipped.  (An `OpExecutionMode` with zero operands
aborts instead of being skipped; see the counterexample.) -/
theorem claim_C6 (m : SpvModule)
    (hwf : ∀ i ∈ m.global_insts, i.opcode = .ExecutionMode → i.operands ≠ []) :
    get_compute_group_size m = .ok (m.global_insts.findSome? matchesLocalSize) :=
  scan_eq_findSome m.global_insts hwf

/-- An `OpExecutionMode` instruction with an empty operand list. -/
def emptyEM : Instruction := ⟨.ExecutionMode, none, none, []⟩

/-- A malformed `OpExecutionMode` with one operand (skipped). -/
def shortEM : Instruction := ⟨.ExecutionMode, none, none, [.IdRef 1]⟩

/-- The counterexample module for C6. -/
def cexC6 : SpvModule := ⟨none, [], [], [], [emptyEM]⟩

/-- Counterexample for C6: `cexC6` contains no instruction matching the
`LocalSize` pattern, so the claim says `get_compute_group_size` returns
nothing and skips the malformed `OpExecutionMode`; instead the scan
panics on the zero-operand `OpExecutionMode` (Rust `operands[1..]`
slice-index panic). -/
theorem claim_C6_counterexample :
    matchesLocalSize emptyEM = none ∧
    get_compute_group_size cexC6 ≠ .ok none ∧
    get_compute_group_size cexC6 =
      .error (.panic "range start index 1 out of range for slice of length 0") :=
  ⟨by decide, by decide, by decide⟩

/-- A well-formed LocalSize execution mode. -/
def lsEM : Instruction :=
  ⟨.ExecutionMode, none, none,
    [.IdRef 1, .ExecutionMode .LocalSize, .LiteralInt32 8, .LiteralInt32 4,
     .LiteralInt32 2]⟩

/-- Module with a skipped malformed mode followed by a LocalSize mode. -/
def c6M : SpvModule := ⟨none, [], [], [], [shortEM, lsEM]⟩

/-- Witness for C6: the malformed one-operand mode is skipped and the
first matching mode is returned. -/
theorem claim_C6_witness :
    get_compute_group_size c6M = .ok (c6M.global_insts.findSome? matchesLocalSize) ∧
    c6M.global_insts.findSome? matchesLocalSize = some (8, 4, 2) :=
  ⟨claim_C6 c6M (by
    intro i hi hop
    simp only [c6M, List.mem_cons, List.not_mem_nil, or_false] at hi
    rcases hi with rfl | rfl
    · decide
    · decide), by decide⟩

/-! ## Claims C7, C9, C10: the binding enumerator -/

/-- A variable without a result id is skipped: no error, no insertion. -/
theorem processVar_skip {m : SpvModule} {fuel : Nat} {names : List (Nat × String)}
    {acc : DescriptorSets} {var : Instruction} (h : var.result_id = none) :
    processVar m fuel names acc var = .ok acc := by
  simp [processVar, h]

/-- A fully-resolvable variable whose debug name is `$Globals` makes
`processVar` fail with `BindingGlobalParameterBuffer`, whatever
descriptor info the classifier produced. -/
theorem processVar_globals {m : SpvModule} {fuel : Nat} {names : List (Nat × String)}
    {acc : DescriptorSets} {var : Instruction} {var_id : Nat}
    {anns : List Instruction} {s b : Nat} {sc : StorageClass} {tid : Nat}
    {d : DescriptorInfo}
    (hid : var.result_id = some var_id)
    (hanns : find_annotations_for_id m.annotations var_id = .ok anns)
    (hsb : resolveSetBinding anns = .ok (some s, some b))
    (hsc : getStorageClassAt var 0 = .ok sc)
    (htid : var.result_type = some tid)
    (hd : get_descriptor_type_for_var m fuel tid sc = .ok d)
    (hname : alookup names var_id = some "$Globals") :
    processVar m fuel names acc var = .error (.err .BindingGlobalParameterBuffer) := by
  simp [processVar, hid, hanns, ok_bind, error_bind, hsb, hsc, htid, hd, hname]

/-- A fully-resolvable variable whose `(set, binding)` slot is already
occupied makes `processVar` panic. -/
theorem processVar_dup {m : SpvModule} {fuel : Nat} {names : List (Nat × String)}
    {acc : DescriptorSets} {var : Instruction} {var_id : Nat}
    {anns : List Instruction} {s b : Nat} {sc : StorageClass} {tid : Nat}
    {d : DescriptorInfo}
    (hid : var.result_id = some var_id)
    (hanns : find_annotations_for_id m.annotations var_id = .ok anns)
    (hsb : resolveSetBinding anns = .ok (some s, some b))
    (hsc : getStorageClassAt var 0 = .ok sc)
    (htid : var.result_type = some tid)
    (hd : get_descriptor_type_for_var m fuel tid sc = .ok d)
    (hname : ∀ nm, alookup names var_id = some nm → nm ≠ "$Globals")
    (hdup : (alookup ((alookup acc s).getD []) b).isNone = false) :
    processVar m fuel names acc var =
      .error (.panic "Can not bind to the same slot twice within the same shader") := by
  have hnn : ¬ alookup ((alookup acc s).getD []) b = none := by
    intro hc
    rw [hc] at hdup
    simp at hdup
  cases hn : alookup names var_id with
  | none => simp [processVar, hid, hanns, ok_bind, hsb, hsc, htid, hd, hn, hnn]
  | some nm =>
    have hne := hname nm hn
    simp [processVar, hid, hanns, ok_bind, hsb, hsc, htid, hd, hn, hne, hnn]

/-- Splitting the variable loop across an append. -/
theorem processVars_append (m : SpvModule) (fuel : Nat) (names : List (Nat × String)) :
    ∀ (l1 l2 : List Instruction) (acc : DescriptorSets),
    processVars m fuel names acc (l1 ++ l2) =
      match processVars m fuel names acc l1 with
      | .error e => .error e
      | .ok acc2 => processVars m fuel names acc2 l2 := by
  intro l1
  induction l1 with
  | nil => intro l2 acc; simp [processVars]
  | cons v rest ih =>
    intro l2 acc
    rw [List.cons_append, processVars, processVars]
    cases hv : processVar m fuel names acc v with
    | error e => rfl
    | ok acc2 => exact ih l2 acc2

/-- A void type, which the classifier cannot handle. -/
def tyVoid1 : Instruction := ⟨.TypeVoid, some 1, none, []⟩

/-- A uniform variable of void type named `$Globals`. -/
def gvar2 : Instruction := ⟨.Variable, some 2, some 1, [.StorageClass .Uniform]⟩

/-- `DescriptorSet 0` decoration on id 2. -/
def dset2 : Instruction :=
  ⟨.Decorate, none, none, [.IdRef 2, .Decoration .DescriptorSet, .LiteralInt32 0]⟩

/-- `Binding 0` decoration on id 2. -/
def dbind2 : Instruction :=
  ⟨.Decorate, none, none, [.IdRef 2, .Decoration .Binding, .LiteralInt32 0]⟩

/-- `OpName %2 "$Globals"`. -/
def nameGlobals2 : Instruction :=
  ⟨.Name, none, none, [.IdRef 2, .LiteralString "$Globals"]⟩

/-- Counterexample module for C7: a discovered uniform variable named
`$Globals` whose type is unclassifiable. -/
def cexC7 : SpvModule := ⟨some (1, 0), [tyVoid1, gvar2], [dset2, dbind2], [nameGlobals2], []⟩

/-- Counterexample for C7: `cexC7` contains a discovered uniform
variable with debug name `$Globals`, yet `get_descriptor_sets` fails
with `UnhandledTypeInstruction` (raised by the type classifier, which
runs before the name check), not with `BindingGlobalParameterBuffer`.
The claim's "regardless of that variable's type" is therefore false. -/
theorem claim_C7_counterexample :
    collectUniformVars cexC7.types_global_values = .ok [gvar2] ∧
    buildNames cexC7.debug_names [] = .ok [(2, "$Globals")] ∧
    get_descriptor_sets cexC7 2 = .error (.err (.UnhandledTypeInstruction tyVoid1)) ∧
    get_descriptor_sets cexC7 2 ≠ .error (.err .BindingGlobalParameterBuffer) :=
  ⟨by decide, by decide, by decide, by decide⟩

/-- C7 (amended): for every module in which a uniform variable
discovered by `get_descriptor_sets` has the debug name `"$Globals"` and
is reached with its set/binding decorations resolved and its type
classification successful, `get_descriptor_sets` fails with
`BindingGlobalParameterBuffer` regardless of the descriptor type the
classification produced. -/
theorem claim_C7 (m : SpvModule) (fuel : Nat) (us1 us2 : List Instruction)
    (var : Instruction) (var_id : Nat) (names : List (Nat × String))
    (acc : DescriptorSets) (anns : List Instruction) (s b : Nat)
    (sc : StorageClass) (tid : Nat) (d : DescriptorInfo)
    (hvars : collectUniformVars m.types_global_values = .ok (us1 ++ var :: us2))
    (hnames : buildNames m.debug_names [] = .ok names)
    (hprior : processVars m fuel names [] us1 = .ok acc)
    (hid : var.result_id = some var_id)
    (hanns : find_annotations_for_id m.annotations var_id = .ok anns)
    (hsb : resolveSetBinding anns = .ok (some s, some b))
    (hsc : getStorageClassAt var 0 = .ok sc)
    (htid : var.result_type = some tid)
    (hd : get_descriptor_type_for_var m fuel tid sc = .ok d)
    (hname : alookup names var_id = some "$Globals") :
    get_descriptor_sets m fuel = .error (.err .BindingGlobalParameterBuffer) := by
  have hpv : processVar m fuel names acc var =
      .error (.err .BindingGlobalParameterBuffer) :=
    processVar_globals hid hanns hsb hsc htid hd hname
  rw [get_descriptor_sets]
  simp only [hvars, hnames]
  rw [processVars_append]
  simp only [hprior]
  rw [processVars]
  simp only [hpv]

/-- A C7 witness module: same as `cexC7` but with a classifiable
(sampler) type for the `$Globals` variable. -/
def c7M : SpvModule :=
  ⟨some (1, 0), [⟨.TypeSampler, some 1, none, []⟩, gvar2], [dset2, dbind2],
    [nameGlobals2], []⟩

/-- Witness for C7. -/
theorem claim_C7_witness :
    get_descriptor_sets c7M 2 = .error (.err .BindingGlobalParameterBuffer) :=
  claim_C7 c7M 2 [] [] gvar2 2 [(2, "$Globals")] [] [dset2, dbind2] 0 0
    .Uniform 1 ⟨DescriptorType.SAMPLER, .One, ""⟩ (by decide) (by decide) rfl rfl
    (by decide) (by decide) rfl (by decide) (by decide) (by decide)

/-- C10: an `OpVariable` with storage class `Uniform`,
`UniformConstant` or `StorageBuffer` but without a `result_id` is
silently skipped by `get_descriptor_sets`: processing it raises no error
and inserts nothing, and a module containing only such a variable
produces the empty map. -/
theorem claim_C10 :
    (∀ (m : SpvModule) (fuel : Nat) (names : List (Nat × String))
      (acc : DescriptorSets) (var : Instruction), var.result_id = none →
      processVar m fuel names acc var = .ok acc) ∧
    (∀ (fuel : Nat) (sc : StorageClass),
      sc = .Uniform ∨ sc = .UniformConstant ∨ sc = .StorageBuffer →
      get_descriptor_sets
        ⟨none, [⟨.Variable, none, some 1, [.StorageClass sc]⟩], [], [], []⟩ fuel =
        .ok []) := by
  constructor
  · intro m fuel names acc var h
    exact processVar_skip h
  · intro fuel sc hsc
    rcases hsc with rfl | rfl | rfl <;> rfl

/-- Witness for C10. -/
theorem claim_C10_witness :
    processVar cexC7 1 [] [] ⟨.Variable, none, some 1, [.StorageClass .Uniform]⟩ =
      .ok [] ∧
    get_descriptor_sets
      ⟨none, [⟨.Variable, none, some 1, [.StorageClass .Uniform]⟩], [], [], []⟩ 1 =
      .ok [] :=
  ⟨claim_C10.1 cexC7 1 [] [] _ rfl, claim_C10.2 1 .Uniform (Or.inl rfl)⟩

/-- An annotation that the `(set, binding)` fold acts on: at least three
operands, a `Decoration` `dec` at operand 1 and a literal at operand 2. -/
def qualifiesAs (dec : Decoration) (a : Instruction) : Prop :=
  3 ≤ a.operands.length ∧ a.operands[1]? = some (Operand.Decoration dec) ∧
    ∃ i, a.operands[2]? = some (Operand.LiteralInt32 i)

/-- `sbStep` only ever fails with a panic. -/
theorem sbStep_error_panic {st : Option Nat × Option Nat} {a : Instruction}
    {e : Failure} (h : sbStep st a = .error e) : ∃ msg, e = .panic msg := by
  unfold sbStep at h
  split at h
  · split at h
    · split at h
      · exact absurd h (by simp)
      · rw [Except.error.injEq] at h; exact ⟨_, h.symm⟩
    · split at h
      · split at h
        · exact absurd h (by simp)
        · rw [Except.error.injEq] at h; exact ⟨_, h.symm⟩
      · exact absurd h (by simp)
  · exact absurd h (by simp)

theorem sbStep_ds_none {st : Option Nat × Option Nat} {a : Instruction} {i : Nat}
    (h1 : a.operands[1]? = some (Operand.Decoration .DescriptorSet))
    (h2 : a.operands[2]? = some (Operand.LiteralInt32 i)) (hst : st.1 = none) :
    sbStep st a = .ok (some i, st.2) := by
  simp [sbStep, h1, h2, hst]

theorem sbStep_ds_some {st : Option Nat × Option Nat} {a : Instruction} {i v : Nat}
    (h1 : a.operands[1]? = some (Operand.Decoration .DescriptorSet))
    (h2 : a.operands[2]? = some (Operand.LiteralInt32 i)) (hst : st.1 = some v) :
    sbStep st a = .error (.panic "Set already has a value!") := by
  simp [sbStep, h1, h2, hst]

theorem sbStep_bind_none {st : Option Nat × Option Nat} {a : Instruction} {i : Nat}
    (h1 : a.operands[1]? = some (Operand.Decoration .Binding))
    (h2 : a.operands[2]? = some (Operand.LiteralInt32 i)) (hst : st.2 = none) :
    sbStep st a = .ok (st.1, some i) := by
  simp [sbStep, h1, h2, hst]

theorem sbStep_bind_some {st : Option Nat × Option Nat} {a : Instruction} {i v : Nat}
    (h1 : a.operands[1]? = some (Operand.Decoration .Binding))
    (h2 : a.operands[2]? = some (Operand.LiteralInt32 i)) (hst : st.2 = some v) :
    sbStep st a = .error (.panic "Binding already has a value!") := by
  simp [sbStep, h1, h2, hst]

/-- A successful `sbStep` never clears an already-assigned set. -/
theorem sbStep_ok_fst {st st' : Option Nat × Option Nat} {a : Instruction} {v : Nat}
    (hst : st.1 = some v) (h : sbStep st a = .ok st') : st'.1 = some v := by
  unfold sbStep at h
  split at h
  · split at h
    · simp only [hst] at h
      exact absurd h (by simp)
    · split at h
      · split at h
        · rw [Except.ok.injEq] at h
          rw [← h]
          exact hst
        · exact absurd h (by simp)
      · rw [Except.ok.injEq] at h
        rw [← h]
        exact hst
  · rw [Except.ok.injEq] at h
    rw [← h]
    exact hst

/-- A successful `sbStep` never clears an already-assigned binding. -/
theorem sbStep_ok_snd {st st' : Option Nat × Option Nat} {a : Instruction} {v : Nat}
    (hst : st.2 = some v) (h : sbStep st a = .ok st') : st'.2 = some v := by
  unfold sbStep at h
  split at h
  · split at h
    · split at h
      · rw [Except.ok.injEq] at h
        rw [← h]
        exact hst
      · exact absurd h (by simp)
    · split at h
      · simp only [hst] at h
        exact absurd h (by simp)
      · rw [Except.ok.injEq] at h
        rw [← h]
        exact hst
  · rw [Except.ok.injEq] at h
    rw [← h]
    exact hst

theorem sbFold_cons (a : Instruction) (rest : List Instruction)
    (st : Option Nat × Option Nat) :
    sbFold (a :: rest) st =
      match sbStep st a with
      | .error e => .error e
      | .ok st' => sbFold rest st' := rfl

theorem sbFold_fst_some : ∀ (l : List Instruction) (st : Option Nat × Option Nat)
    (v : Nat), st.1 = some v → (∃ a ∈ l, qualifiesAs .DescriptorSet a) →
    ∃ msg, sbFold l st = .error (.panic msg) := by
  intro l
  induction l with
  | nil =>
    rintro st v hst ⟨a, ha, -⟩
    simp at ha
  | cons a rest ih =>
    rintro st v hst ⟨a2, ha2, hq⟩
    rw [sbFold]
    cases hs : sbStep st a with
    | error e =>
      obtain ⟨msg, rfl⟩ := sbStep_error_panic hs
      exact ⟨msg, rfl⟩
    | ok st' =>
      rcases List.mem_cons.mp ha2 with rfl | hmem
      · obtain ⟨-, h1, i, h2⟩ := hq
        rw [sbStep_ds_some h1 h2 hst] at hs
        exact absurd hs (by simp)
      · exact ih st' v (sbStep_ok_fst hst hs) ⟨a2, hmem, hq⟩

theorem sbFold_snd_some : ∀ (l : List Instruction) (st : Option Nat × Option Nat)
    (v : Nat), st.2 = some v → (∃ a ∈ l, qualifiesAs .Binding a) →
    ∃ msg, sbFold l st = .error (.panic msg) := by
  intro l
  induction l with
  | nil =>
    rintro st v hst ⟨a, ha, -⟩
    simp at ha
  | cons a rest ih =>
    rintro st v hst ⟨a2, ha2, hq⟩
    rw [sbFold]
    cases hs : sbStep st a with
    | error e =>
      obtain ⟨msg, rfl⟩ := sbStep_error_panic hs
      exact ⟨msg, rfl⟩
    | ok st' =>
      rcases List.mem_cons.mp ha2 with rfl | hmem
      · obtain ⟨-, h1, i, h2⟩ := hq
        rw [sbStep_bind_some h1 h2 hst] at hs
        exact absurd hs (by simp)
      · exact ih st' v (sbStep_ok_snd hst hs) ⟨a2, hmem, hq⟩

theorem sbFold_two_ds : ∀ (l1 : List Instruction) (a1 : Instruction)
    (l2 : List Instruction) (a2 : Instruction) (l3 : List Instruction)
    (st : Option Nat × Option Nat),
    qualifiesAs .DescriptorSet a1 → qualifiesAs .DescriptorSet a2 →
    ∃ msg, sbFold (l1 ++ a1 :: l2 ++ a2 :: l3) st = .error (.panic msg) := by
  intro l1
  induction l1 with
  | nil =>
    intro a1 l2 a2 l3 st hq1 hq2
    simp only [List.nil_append, List.cons_append, sbFold_cons]
    obtain ⟨-, h1, i, h2⟩ := hq1
    cases hst : st.1 with
    | some v =>
      simp only [sbStep_ds_some h1 h2 hst]
      exact ⟨_, rfl⟩
    | none =>
      simp only [sbStep_ds_none h1 h2 hst]
      exact sbFold_fst_some (l2 ++ a2 :: l3) (some i, st.2) i rfl ⟨a2, by simp, hq2⟩
  | cons x l1' ih =>
    intro a1 l2 a2 l3 st hq1 hq2
    simp only [List.cons_append, sbFold_cons]
    cases hs : sbStep st x with
    | error e =>
      obtain ⟨msg, rfl⟩ := sbStep_error_panic hs
      exact ⟨msg, rfl⟩
    | ok st' => exact ih a1 l2 a2 l3 st' hq1 hq2

theorem sbFold_two_bind : ∀ (l1 : List Instruction) (a1 : Instruction)
    (l2 : List Instruction) (a2 : Instruction) (l3 : List Instruction)
    (st : Option Nat × Option Nat),
    qualifiesAs .Binding a1 → qualifiesAs .Binding a2 →
    ∃ msg, sbFold (l1 ++ a1 :: l2 ++ a2 :: l3) st = .error (.panic msg) := by
  intro l1
  induction l1 with
  | nil =>
    intro a1 l2 a2 l3 st hq1 hq2
    simp only [List.nil_append, List.cons_append, sbFold_cons]
    obtain ⟨-, h1, i, h2⟩ := hq1
    cases hst : st.2 with
    | some v =>
      simp only [sbStep_bind_some h1 h2 hst]
      exact ⟨_, rfl⟩
    | none =>
      simp only [sbStep_bind_none h1 h2 hst]
      exact sbFold_snd_some (l2 ++ a2 :: l3) (st.1, some i) i rfl ⟨a2, by simp, hq2⟩
  | cons x l1' ih =>
    intro a1 l2 a2 l3 st hq1 hq2
    simp only [List.cons_append, sbFold_cons]
    cases hs : sbStep st x with
    | error e =>
      obtain ⟨msg, rfl⟩ := sbStep_error_panic hs
      exact ⟨msg, rfl⟩
    | ok st' => exact ih a1 l2 a2 l3 st' hq1 hq2

/-- Two qualifying `DescriptorSet` annotations on one variable make the
`(set, binding)` fold panic. -/
theorem resolveSetBinding_dup_ds {anns l1 l2 l3 : List Instruction}
    {a1 a2 : Instruction} (hdec : anns = l1 ++ a1 :: l2 ++ a2 :: l3)
    (h1 : qualifiesAs .DescriptorSet a1) (h2 : qualifiesAs .DescriptorSet a2) :
    ∃ msg, resolveSetBinding anns = .error (.panic msg) := by
  rw [resolveSetBinding, hdec]
  have hf1 : decide (3 ≤ a1.operands.length) = true := by simp [h1.1]
  have hf2 : decide (3 ≤ a2.operands.length) = true := by simp [h2.1]
  simp only [List.filter_append, List.filter_cons, hf1, hf2, if_true]
  exact sbFold_two_ds _ a1 _ a2 _ (none, none) h1 h2

/-- Two qualifying `Binding` annotations on one variable make the
`(set, binding)` fold panic. -/
theorem resolveSetBinding_dup_bind {anns l1 l2 l3 : List Instruction}
    {a1 a2 : Instruction} (hdec : anns = l1 ++ a1 :: l2 ++ a2 :: l3)
    (h1 : qualifiesAs .Binding a1) (h2 : qualifiesAs .Binding a2) :
    ∃ msg, resolveSetBinding anns = .error (.panic msg) := by
  rw [resolveSetBinding, hdec]
  have hf1 : decide (3 ≤ a1.operands.length) = true := by simp [h1.1]
  have hf2 : decide (3 ≤ a2.operands.length) = true := by simp [h2.1]
  simp only [List.filter_append, List.filter_cons, hf1, hf2, if_true]
  exact sbFold_two_bind _ a1 _ a2 _ (none, none) h1 h2

/-- A sampler type with result id 1 (for the duplicate-binding family). -/
def tySamp1 : Instruction := ⟨.TypeSampler, some 1, none, []⟩

/-- First uniform-constant sampler variable (id 2). -/
def dupVar1 : Instruction := ⟨.Variable, some 2, some 1, [.StorageClass .UniformConstant]⟩

/-- Second uniform-constant sampler variable (id 3). -/
def dupVar2 : Instruction := ⟨.Variable, some 3, some 1, [.StorageClass .UniformConstant]⟩

/-- A `DescriptorSet s` decoration on `id`. -/
def dsAnn (id s : Nat) : Instruction :=
  ⟨.Decorate, none, none, [.IdRef id, .Decoration .DescriptorSet, .LiteralInt32 s]⟩

/-- A `Binding b` decoration on `id`. -/
def bAnn (id b : Nat) : Instruction :=
  ⟨.Decorate, none, none, [.IdRef id, .Decoration .Binding, .LiteralInt32 b]⟩

/-- A module family in which two distinct sampler variables resolve to
the same `(set, binding)` pair `(s, b)`. -/
def dupPairModule (s b : Nat) : SpvModule :=
  ⟨some (1, 0), [tySamp1, dupVar1, dupVar2],
   [dsAnn 2 s, bAnn 2 b, dsAnn 3 s, bAnn 3 b], [], []⟩

/-- C9: when two discovered uniform variables resolve to the same
`(set, binding)` pair, or one variable carries two `DescriptorSet` or
two `Binding` decorations, `get_descriptor_sets` aborts with a
panic-class assertion failure (`Failure.panic`) rather than returning a
recoverable error: end-to-end for the two-variable family
`dupPairModule`, and in general for the `(set, binding)` fold and for
the duplicate-slot insertion, whenever processing reaches the
corresponding check. -/
theorem claim_C9 :
    (∀ s b : Nat, get_descriptor_sets (dupPairModule s b) 1 =
      .error (.panic "Can not bind to the same slot twice within the same shader")) ∧
    (∀ (anns l1 l2 l3 : List Instruction) (a1 a2 : Instruction),
      anns = l1 ++ a1 :: l2 ++ a2 :: l3 →
      qualifiesAs .DescriptorSet a1 → qualifiesAs .DescriptorSet a2 →
      ∃ msg, resolveSetBinding anns = .error (.panic msg)) ∧
    (∀ (anns l1 l2 l3 : List Instruction) (a1 a2 : Instruction),
      anns = l1 ++ a1 :: l2 ++ a2 :: l3 →
      qualifiesAs .Binding a1 → qualifiesAs .Binding a2 →
      ∃ msg, resolveSetBinding anns = .error (.panic msg)) ∧
    (∀ (m : SpvModule) (fuel : Nat) (names : List (Nat × String))
      (acc : DescriptorSets) (var : Instruction) (var_id : Nat)
      (anns : List Instruction) (s b : Nat) (sc : StorageClass) (tid : Nat)
      (d : DescriptorInfo),
      var.result_id = some var_id →
      find_annotations_for_id m.annotations var_id = .ok anns →
      resolveSetBinding anns = .ok (some s, some b) →
      getStorageClassAt var 0 = .ok sc →
      var.result_type = some tid →
      get_descriptor_type_for_var m fuel tid sc = .ok d →
      (∀ nm, alookup names var_id = some nm → nm ≠ "$Globals") →
      (alookup ((alookup acc s).getD []) b).isNone = false →
      processVar m fuel names acc var =
        .error (.panic "Can not bind to the same slot twice within the same shader")) := by
  refine ⟨?_, ?_, ?_, ?_⟩
  · intro s b
    have h1 : processVar (dupPairModule s b) 1 [] [] dupVar1 =
        .ok [(s, [(b, ⟨DescriptorType.SAMPLER, .One, ""⟩)])] := rfl
    have h2 : processVar (dupPairModule s b) 1 []
        [(s, [(b, ⟨DescriptorType.SAMPLER, .One, ""⟩)])] dupVar2 =
        .error (.panic "Can not bind to the same slot twice within the same shader") := by
      refine processVar_dup rfl rfl rfl rfl rfl rfl ?_ ?_
      · intro nm h
        simp [alookup] at h
      · simp [alookup]
    rw [get_descriptor_sets]
    have hc : collectUniformVars (dupPairModule s b).types_global_values =
        .ok [dupVar1, dupVar2] := rfl
    have hn : buildNames (dupPairModule s b).debug_names [] = .ok [] := rfl
    simp only [hc, hn]
    rw [processVars]
    simp only [h1]
    rw [processVars]
    simp only [h2]
  · intro anns l1 l2 l3 a1 a2 hdec h1 h2
    exact resolveSetBinding_dup_ds hdec h1 h2
  · intro anns l1 l2 l3 a1 a2 hdec h1 h2
    exact resolveSetBinding_dup_bind hdec h1 h2
  · intro m fuel names acc var var_id anns s b sc tid d hid hanns hsb hsc htid hd
      hname hdup
    exact processVar_dup hid hanns hsb hsc htid hd hname hdup

/-- Witness for C9. -/
theorem claim_C9_witness :
    get_descriptor_sets (dupPairModule 0 0) 1 =
      .error (.panic "Can not bind to the same slot twice within the same shader") ∧
    (∃ msg, resolveSetBinding [dsAnn 2 0, dsAnn 2 1] = .error (.panic msg)) ∧
    (∃ msg, resolveSetBinding [bAnn 2 0, bAnn 2 1] = .error (.panic msg)) ∧
    processVar (dupPairModule 0 0) 1 []
      [(0, [(0, ⟨DescriptorType.SAMPLER, .One, ""⟩)])] dupVar2 =
      .error (.panic "Can not bind to the same slot twice within the same shader") :=
  ⟨claim_C9.1 0 0,
   claim_C9.2.1 _ [] [] [] (dsAnn 2 0) (dsAnn 2 1) rfl
     ⟨by decide, by decide, 0, by decide⟩ ⟨by decide, by decide, 1, by decide⟩,
   claim_C9.2.2.1 _ [] [] [] (bAnn 2 0) (bAnn 2 1) rfl
     ⟨by decide, by decide, 0, by decide⟩ ⟨by decide, by decide, 1, by decide⟩,
   claim_C9.2.2.2 (dupPairModule 0 0) 1 []
     [(0, [(0, ⟨DescriptorType.SAMPLER, .One, ""⟩)])] dupVar2 3
     [dsAnn 3 0, bAnn 3 0] 0 0 .UniformConstant 1
     ⟨DescriptorType.SAMPLER, .One, ""⟩ rfl (by decide) (by decide) (by decide) rfl
     (by decide) (fun nm h => by simp [alookup] at h) (by decide)⟩
